import Mathlib

/-!
# loghup: capture loop, log targets and rotation

A shallow embedding of `src/loghup.c`.  The C globals become the record
`Globals`; every system call becomes a function on an explicit operating
system state `World` (descriptor table, pipes, files, and the list of calls
issued so far).  What a system call returns is not decided by the program, so
every call takes its return value as an argument (the environment's answer);
the theorems quantify over all answers.

The `while` loop of `pipe_to_logs` is run against a finite script with one
entry per iteration.  An entry holds the answers to the calls of that
iteration and what happens around the program: the bytes the child writes and
whether the signal handler runs.  Both are placed at the start of the
iteration.  For the child this loses nothing: its writes only append to a
queue that the loop reads from the other end, and the two streams use
different pipes.  For the handler it means that a signal delivered in the
middle of an iteration is seen by the check of the next one.
-/

namespace Loghup

/-- One byte of child output (`char` in the source). The program never inspects bytes. -/
abbrev Byte := Fin 256

/-- The constant `PIPE_BUF` of `<limits.h>` (a system header, value on Linux). -/
def PIPE_BUF : Nat := 4096

/-- The constant `EXIT_SUCCESS` of `<stdlib.h>`. -/
def EXIT_SUCCESS : Int := 0

/-- The constant `EXIT_FAILURE` of `<stdlib.h>`. -/
def EXIT_FAILURE : Int := 1

/-- The struct `stdlog_t`; `pipe0` and `pipe1` are `pipe[0]` and `pipe[1]`. -/
structure stdlog_t where
  path : String
  path_fd : Int
  pipe0 : Int
  pipe1 : Int
  done : Int
deriving DecidableEq, Repr

/-- The global variables of `loghup.c`. -/
structure Globals where
  out : stdlog_t
  err : stdlog_t
  signo : Int
  child_pid : Int
  hupped : Int
  forward_sig : Int
deriving DecidableEq, Repr

/-- A system call (or `perror`) issued by the program, with its arguments and result. -/
inductive SysCall where
  | c_close (fd : Int) (r : Int)
  | c_open (path : String) (r : Int)
  | c_pipe (r : Int)
  | c_read (fd : Int) (count : Nat) (r : Int)
  | c_write (fd : Int) (buf : List Byte) (n : Int) (r : Int)
  | c_select (nfds : Int) (rv : Int)
  | c_kill (pid : Int) (sig : Int) (r : Int)
  | c_perror (msg : String)
deriving DecidableEq, Repr

/-- What a descriptor refers to: a regular file (by file identity), or an end of a pipe. -/
inductive FdObj where
  | file (ino : Nat)
  | pipe_r (id : Nat)
  | pipe_w (id : Nat)
deriving DecidableEq, Repr

/-- A pipe: the FIFO queue of bytes written and not yet read, and whether the writer has
closed its end. -/
structure Pipe where
  queue : List Byte
  wclosed : Bool
deriving DecidableEq, Repr

/-- The operating system as seen by the program. `files` is the content of each file
(append-only here: the logs are opened with `O_APPEND`); `trace` lists the calls issued. -/
structure World where
  fds : Int → Option FdObj
  pipes : Nat → Pipe
  files : Nat → List Byte
  trace : List SysCall

/-- Record a call in the trace. -/
def World.emit (w : World) (c : SysCall) : World :=
  { w with trace := w.trace ++ [c] }

/-- The call `close(fd)` returning `r`: on success the descriptor leaves the table. -/
def sys_close (w : World) (fd : Int) (r : Int) : World :=
  { w with
    fds := if r = 0 then Function.update w.fds fd none else w.fds
    trace := w.trace ++ [SysCall.c_close fd r] }

/-- The call `open(path, O_RDWR|O_CREAT|O_APPEND, 0644)` returning `r`; when it succeeds
`r` is the new descriptor and `ino` the file the path resolves to at that moment. -/
def sys_open (w : World) (path : String) (r : Int) (ino : Nat) : World :=
  { w with
    fds := if 0 ≤ r then Function.update w.fds r (some (FdObj.file ino)) else w.fds
    trace := w.trace ++ [SysCall.c_open path r] }

/-- The call `pipe(fds)` returning `r`; when it succeeds a fresh empty pipe `id` is
installed with read end `p0` and write end `p1` (the array is written on success only). -/
def sys_pipe (w : World) (r : Int) (p0 p1 : Int) (id : Nat) : World :=
  { w with
    fds := if r = 0 then
        Function.update (Function.update w.fds p0 (some (FdObj.pipe_r id))) p1
          (some (FdObj.pipe_w id))
      else w.fds
    pipes := if r = 0 then Function.update w.pipes id ⟨[], false⟩ else w.pipes
    trace := w.trace ++ [SysCall.c_pipe r] }

/-- The call `read(fd, buf, count)` returning `r`: when `r > 0` the first `r` queued bytes
of the pipe leave the queue and fill the buffer. Returns the buffer and the new world. -/
def sys_read (w : World) (fd : Int) (count : Nat) (r : Int) : List Byte × World :=
  match w.fds fd with
  | some (FdObj.pipe_r id) =>
    if 0 < r then
      ((w.pipes id).queue.take r.toNat,
        { w with
          pipes := Function.update w.pipes id
            { (w.pipes id) with queue := (w.pipes id).queue.drop r.toNat }
          trace := w.trace ++ [SysCall.c_read fd count r] })
    else ([], w.emit (SysCall.c_read fd count r))
  | _ => ([], w.emit (SysCall.c_read fd count r))

/-- The call `write(fd, buf, n)` returning `r`: when `r > 0` the first `r` bytes of the
buffer are appended to the file behind `fd`. -/
def sys_write (w : World) (fd : Int) (buf : List Byte) (n : Int) (r : Int) : World :=
  match w.fds fd with
  | some (FdObj.file ino) =>
    if 0 < r then
      { w with
        files := Function.update w.files ino (w.files ino ++ buf.take r.toNat)
        trace := w.trace ++ [SysCall.c_write fd buf n r] }
    else w.emit (SysCall.c_write fd buf n r)
  | _ => w.emit (SysCall.c_write fd buf n r)

/-- The call `kill(pid, sig)` returning `r`. -/
def sys_kill (w : World) (pid sig : Int) (r : Int) : World :=
  w.emit (SysCall.c_kill pid sig r)

/-- The library call `perror(msg)`. -/
def perror (w : World) (msg : String) : World :=
  w.emit (SysCall.c_perror msg)

/-- The environment's answers to the calls of one `init_log`. -/
structure InitEnv where
  close_r : Int
  open_r : Int
  open_ino : Nat
  pipe_r : Int
  pipe_p0 : Int
  pipe_p1 : Int
  pipe_id : Nat

/-- The environment's answers to the two `close` calls of one `deinit_log`. -/
structure DeinitEnv where
  close_path_r : Int
  close_pipe_r : Int

/-- The environment's answers to the calls of one `read_pipe_into_log`. -/
structure DrainEnv where
  read_r : Int
  write_r : Int
  deinit : DeinitEnv

/-- The function `handle_hup`, with the result `kill_r` of `kill` should it be called. -/
def handle_hup (g : Globals) (w : World) (kill_r : Int) : Globals × World :=
  let g1 := { g with hupped := 1 }
  if g1.forward_sig ≠ 0 ∧ g1.child_pid ≠ 0 then
    let w1 := sys_kill w g1.child_pid g1.signo kill_r
    if -1 = kill_r then (g1, perror w1 "kill(child_pid)") else (g1, w1)
  else (g1, w)

/-- The function `init_log`: returns the result (1 success, 0 error), the target and the
world. -/
def init_log (log : stdlog_t) (w : World) (e : InitEnv) : Int × stdlog_t × World :=
  if log.path_fd ≠ 0 ∧ 0 ≠ e.close_r then
    (0, log, perror (sys_close w log.path_fd e.close_r) "close(log->path_fd)")
  else
    let w1 := if log.path_fd ≠ 0 then sys_close w log.path_fd e.close_r else w
    let w2 := sys_open w1 log.path e.open_r e.open_ino
    if -1 = e.open_r then
      (0, { log with path_fd := 0 }, perror w2 "open(log->path)")
    else
      let log2 := { log with path_fd := e.open_r }
      if 0 = log2.pipe0 ∧ 0 = log2.pipe1 then
        let w3 := sys_pipe w2 e.pipe_r e.pipe_p0 e.pipe_p1 e.pipe_id
        if -1 = e.pipe_r then (0, log2, perror w3 "pipe(log->pipe)")
        else if e.pipe_r = 0 then
          (1, { log2 with pipe0 := e.pipe_p0, pipe1 := e.pipe_p1 }, w3)
        else (1, log2, w3)
      else (1, log2, w2)

/-- The function `deinit_log`; the source ignores the results of its `close` calls. -/
def deinit_log (log : stdlog_t) (w : World) (e : DeinitEnv) : stdlog_t × World :=
  let (log1, w1) :=
    if log.path_fd ≠ 0 then
      ({ log with path_fd := 0 }, sys_close w log.path_fd e.close_path_r)
    else (log, w)
  let (log2, w2) :=
    if log1.pipe0 ≠ 0 then
      ({ log1 with pipe0 := 0 }, sys_close w1 log1.pipe0 e.close_pipe_r)
    else (log1, w1)
  ({ log2 with done := 1 }, w2)

/-- The function `read_pipe_into_log`: returns `ok`, the target and the world. -/
def read_pipe_into_log (log : stdlog_t) (w : World) (e : DrainEnv) :
    Int × stdlog_t × World :=
  let (buf, w1) := sys_read w log.pipe0 PIPE_BUF e.read_r
  let nbytes := e.read_r
  if -1 = nbytes then
    let (log2, w2) := deinit_log log (perror w1 "read(log->pipe[0])") e.deinit
    (0, log2, w2)
  else if 0 = nbytes then
    let (log2, w2) := deinit_log log w1 e.deinit
    (1, log2, w2)
  else
    let w2 := sys_write w1 log.path_fd buf nbytes e.write_r
    if nbytes ≠ e.write_r then
      let (log3, w3) := deinit_log log (perror w2 "write(log->path_fd)") e.deinit
      (0, log3, w3)
    else (1, log, w2)

/-- Something a writer does to pipe `pipe` while the loop runs: it writes `bytes`, then
closes its end when `close` is set. Nothing can be written once the end is closed. -/
structure ChildEv where
  pipe : Nat
  bytes : List Byte
  close : Bool
deriving DecidableEq, Repr

/-- The effect of one writer event on the world. -/
def child_ev (w : World) (ev : ChildEv) : World :=
  if (w.pipes ev.pipe).wclosed then w
  else
    { w with
      pipes := Function.update w.pipes ev.pipe
        ⟨(w.pipes ev.pipe).queue ++ ev.bytes, ev.close⟩ }

/-- The bytes a sequence of writer events puts into pipe `id` (open at the start). -/
def written (id : Nat) : List ChildEv → List Byte
  | [] => []
  | ev :: evs =>
    if ev.pipe = id then ev.bytes ++ (if ev.close then [] else written id evs)
    else written id evs

/-- The environment of one iteration of the capture loop: what the child writes and
whether the signal handler runs before the iteration, and the answers to the system
calls the iteration may issue. `readfds` is the set `select` leaves behind. -/
structure IterEnv where
  child : List ChildEv
  signal : Bool
  kill_r : Int
  init_out : InitEnv
  init_err : InitEnv
  select_rv : Int
  readfds : Int → Bool
  drain_out : DrainEnv
  drain_err : DrainEnv

/-- The state of `pipe_to_logs` inside its loop: globals, world and the local
`exit_code`. -/
structure LoopSt where
  g : Globals
  w : World
  exit_code : Int

/-- How an iteration ends: the loop condition is tested again, or `break`. -/
inductive LoopCtl where
  | next
  | brk
deriving DecidableEq, Repr

/-- What happens outside the program before an iteration: the child writes, and the
signal handler `handle_hup` runs if the signal is delivered. -/
def iter_env (e : IterEnv) (s : LoopSt) : LoopSt :=
  let w1 := e.child.foldl child_ev s.w
  if e.signal then
    let (g2, w2) := handle_hup s.g w1 e.kill_r
    { s with g := g2, w := w2 }
  else { s with w := w1 }

/-- Lines 210-214: `if (hupped) { init_log(&out); init_log(&err); hupped = 0; }`. -/
def iter_hup (e : IterEnv) (s : LoopSt) : LoopSt :=
  if s.g.hupped ≠ 0 then
    let (_, out1, w1) := init_log s.g.out s.w e.init_out
    let (_, err1, w2) := init_log s.g.err w1 e.init_err
    { s with g := { s.g with out := out1, err := err1, hupped := 0 }, w := w2 }
  else s

/-- Lines 217-228: the descriptor set passed to `select`. -/
def select_set (g : Globals) : Int → Bool :=
  let s0 : Int → Bool := fun _ => false
  let s1 : Int → Bool := if g.out.done = 0 then fun fd => fd = g.out.pipe0 || s0 fd else s0
  if g.err.done = 0 then fun fd => fd = g.err.pipe0 || s1 fd else s1

/-- Lines 218-228: the argument `nfds` passed to `select`. -/
def select_nfds (g : Globals) : Int :=
  let n1 : Int := if g.out.done = 0 then g.out.pipe0 + 1 else 0
  if g.err.done = 0 then (if g.err.pipe0 + 1 > n1 then g.err.pipe0 + 1 else n1) else n1

/-- Lines 241-245: drain `out` if it is not done and `select` left it in the set. -/
def iter_drain_out (e : IterEnv) (rs : Int → Bool) (s : LoopSt) : LoopSt :=
  if s.g.out.done = 0 ∧ rs s.g.out.pipe0 = true then
    let (ok, out1, w1) := read_pipe_into_log s.g.out s.w e.drain_out
    { g := { s.g with out := out1 }, w := w1,
      exit_code := if ok = 0 then EXIT_FAILURE else s.exit_code }
  else s

/-- Lines 246-250: drain `err` if it is not done and `select` left it in the set. -/
def iter_drain_err (e : IterEnv) (rs : Int → Bool) (s : LoopSt) : LoopSt :=
  if s.g.err.done = 0 ∧ rs s.g.err.pipe0 = true then
    let (ok, err1, w1) := read_pipe_into_log s.g.err s.w e.drain_err
    { g := { s.g with err := err1 }, w := w1,
      exit_code := if ok = 0 then EXIT_FAILURE else s.exit_code }
  else s

/-- The set `select` leaves in `readfds`: members of the set passed in that the
environment reports ready. -/
def select_result (e : IterEnv) (g : Globals) : Int → Bool :=
  fun fd => select_set g fd && e.readfds fd

/-- Line 229: the call `select(nfds, &readfds, NULL, NULL, NULL)` returning
`e.select_rv`. -/
def iter_select (e : IterEnv) (s : LoopSt) : LoopSt :=
  { s with w := s.w.emit (SysCall.c_select (select_nfds s.g) e.select_rv) }

/-- The state in which an iteration calls `select`: after the environment's part and
the rotation check. -/
def before_select (e : IterEnv) (s : LoopSt) : LoopSt :=
  iter_hup e (iter_env e s)

/-- One iteration of the `while` loop of `pipe_to_logs`: the environment's part, then the
body (lines 209-250). Returns how the iteration ends and the new state. -/
def loop_body (e : IterEnv) (s : LoopSt) : LoopCtl × LoopSt :=
  let s1 := before_select e s
  let rs := select_result e s1.g
  let s2 := iter_select e s1
  if -1 = e.select_rv then
    (LoopCtl.brk, { s2 with w := perror s2.w "select", exit_code := EXIT_FAILURE })
  else if 0 = e.select_rv then (LoopCtl.next, s2)
  else (LoopCtl.next, iter_drain_err e rs (iter_drain_out e rs s2))

/-- The loop condition `!out.done || !err.done`. -/
def loop_cond (s : LoopSt) : Bool :=
  decide (s.g.out.done = 0) || decide (s.g.err.done = 0)

/-- The `while` loop of `pipe_to_logs` run against a finite script of iteration
environments. `none`: the script ended with the loop still running. Otherwise the state
in which the loop was left, and whether it was left by `break`. -/
def pipe_to_logs_loop : List IterEnv → LoopSt → Option (LoopCtl × LoopSt)
  | [], s => if loop_cond s then none else some (LoopCtl.next, s)
  | e :: es, s =>
    if loop_cond s then
      match loop_body e s with
      | (LoopCtl.brk, s1) => some (LoopCtl.brk, s1)
      | (LoopCtl.next, s1) => pipe_to_logs_loop es s1
    else some (LoopCtl.next, s)

/-- The function `pipe_to_logs`: the loop, then `deinit_log` on both targets; returns
`exit_code` with the final globals and world. -/
def pipe_to_logs (es : List IterEnv) (fin_out fin_err : DeinitEnv) (g : Globals)
    (w : World) : Option (Int × Globals × World) :=
  match pipe_to_logs_loop es ⟨g, w, EXIT_SUCCESS⟩ with
  | none => none
  | some (_, s) =>
    let (out1, w1) := deinit_log s.g.out s.w fin_out
    let (err1, w2) := deinit_log s.g.err w1 fin_err
    some (s.exit_code, { s.g with out := out1, err := err1 }, w2)

/-- The state after the loop has run every iteration of the script; `none` if the loop
was left before the script ended. -/
def loop_steps : List IterEnv → LoopSt → Option LoopSt
  | [], s => some s
  | e :: es, s =>
    if loop_cond s then
      match loop_body e s with
      | (LoopCtl.brk, _) => none
      | (LoopCtl.next, s1) => loop_steps es s1
    else none

/-- A drain fails: `read` returns -1, or `read` returns n > 0 and `write` returns
something else. -/
def drain_fails (d : DrainEnv) : Prop :=
  d.read_r = -1 ∨ (0 < d.read_r ∧ d.write_r ≠ d.read_r)

/-- The macro `WIFEXITED` of `<sys/wait.h>` (a system header; Linux encoding). -/
def WIFEXITED (status : Int) : Bool := status % 128 = 0

/-- The macro `WEXITSTATUS` of `<sys/wait.h>` (a system header; Linux encoding). -/
def WEXITSTATUS (status : Int) : Int := (status / 256) % 256

/-- Lines 76-82 of `main`: the exit code from the loop's code `exit_code`, the value
`wait_r` returned by `waitpid` and the `wait_status` it stored. -/
def main_exit (exit_code : Int) (wait_r : Int) (wait_status : Int) : Int :=
  if -1 ≠ wait_r then
    Int.lor exit_code (if WIFEXITED wait_status then WEXITSTATUS wait_status else 0)
  else Int.lor exit_code 1

/-! ## Predicates used in the statements -/

/-- The world in which `init_log` calls `open`: the old descriptor, if any, is closed. -/
def after_close (log : stdlog_t) (w : World) (e : InitEnv) : World :=
  if log.path_fd ≠ 0 then sys_close w log.path_fd e.close_r else w

/-- The calls one `init_log` issues on target `log`, in order, for the answers `e`. -/
def init_log_calls (log : stdlog_t) (e : InitEnv) : List SysCall :=
  if log.path_fd ≠ 0 ∧ e.close_r ≠ 0 then
    [SysCall.c_close log.path_fd e.close_r, SysCall.c_perror "close(log->path_fd)"]
  else
    (if log.path_fd ≠ 0 then [SysCall.c_close log.path_fd e.close_r] else []) ++
      SysCall.c_open log.path e.open_r ::
        (if e.open_r = -1 then [SysCall.c_perror "open(log->path)"]
        else if log.pipe0 = 0 ∧ log.pipe1 = 0 then
          SysCall.c_pipe e.pipe_r ::
            (if e.pipe_r = -1 then [SysCall.c_perror "pipe(log->pipe)"] else [])
        else [])

/-- A drain is attempted on `out` in iteration `e` from loop state `s`: the target is not
done and `select` reports its read end ready. -/
def out_attempted (e : IterEnv) (s : LoopSt) : Prop :=
  (before_select e s).g.out.done = 0 ∧ e.readfds (before_select e s).g.out.pipe0 = true

/-- A drain is attempted on `err` in iteration `e` from loop state `s`. -/
def err_attempted (e : IterEnv) (s : LoopSt) : Prop :=
  (before_select e s).g.err.done = 0 ∧ e.readfds (before_select e s).g.err.pipe0 = true

/-- All writer events of a script, in order. -/
def script_child : List IterEnv → List ChildEv
  | [] => []
  | e :: es => e.child ++ script_child es

/-- The calls of a drain succeed as a pipe allows: `read` on the read end `fd` returns
either n > 0 with n at most `PIPE_BUF` and at most the number of queued bytes, and then
`write` returns n; or 0, and then the queue is empty and the writer has closed. -/
def drain_ok (w : World) (fd : Int) (d : DrainEnv) : Bool :=
  match w.fds fd with
  | some (FdObj.pipe_r id) =>
    (decide (0 < d.read_r) && decide (d.read_r ≤ (PIPE_BUF : Int)) &&
        decide (d.read_r.toNat ≤ (w.pipes id).queue.length) &&
        decide (d.write_r = d.read_r)) ||
      (decide (d.read_r = 0) && decide ((w.pipes id).queue = []) && (w.pipes id).wclosed)
  | _ => false

/-- In iteration `e` from loop state `s` no signal arrives, `select` does not fail, and
the calls of every drain that is attempted succeed as in `drain_ok`. -/
def iter_ok (e : IterEnv) (s : LoopSt) : Bool :=
  let s1 := iter_select e (before_select e s)
  let rs := select_result e (before_select e s).g
  let s2 := iter_drain_out e rs s1
  !e.signal && decide (e.select_rv ≠ -1) &&
    (decide (e.select_rv = 0) ||
      ((!(decide (s1.g.out.done = 0) && rs s1.g.out.pipe0) ||
          drain_ok s1.w s1.g.out.pipe0 e.drain_out) &&
        (!(decide (s2.g.err.done = 0) && rs s2.g.err.pipe0) ||
          drain_ok s2.w s2.g.err.pipe0 e.drain_err)))

/-- Every iteration the loop runs on the script is as in `iter_ok`. -/
def run_ok : List IterEnv → LoopSt → Bool
  | [], _ => true
  | e :: es, s =>
    if loop_cond s then iter_ok e s && run_ok es (loop_body e s).2 else true

/-- The invariant of one stream while the loop runs without rotation. While the target is
not done its two descriptors are open on its pipe `id` and its file `ino`, and the file,
followed by the queued bytes, followed by what the writer will still write, is `total`.
Once it is done the file is `total`. -/
def StreamInv (log : stdlog_t) (w : World) (id ino : Nat) (total : List Byte)
    (rest : List ChildEv) : Prop :=
  (log.done = 0 →
    w.fds log.pipe0 = some (FdObj.pipe_r id) ∧
    w.fds log.path_fd = some (FdObj.file ino) ∧
    w.files ino ++ (w.pipes id).queue ++
      (if (w.pipes id).wclosed then [] else written id rest) = total) ∧
  (log.done ≠ 0 → w.files ino = total)

/-- The invariant of the capture loop while it runs without rotation and without
failure: no rotation is pending, both streams satisfy their invariant, and `exit_code`
is `EXIT_SUCCESS`. -/
def LoopInv (s : LoopSt) (po io pe ie : Nat) (tout terr : List Byte)
    (rest : List ChildEv) : Prop :=
  s.g.hupped = 0 ∧ StreamInv s.g.out s.w po io tout rest ∧
    StreamInv s.g.err s.w pe ie terr rest ∧ s.exit_code = EXIT_SUCCESS

/-- In iteration `e` the environment lets a drain of the read end `fd` of `out` see end
of stream: `select` does not return 0, reports `fd` ready, and `read` returns 0. -/
def eof_out (fd : Int) (e : IterEnv) : Prop :=
  e.select_rv ≠ 0 ∧ e.readfds fd = true ∧ e.drain_out.read_r = 0

/-- In iteration `e` the environment lets a drain of the read end `fd` of `err` see end
of stream. -/
def eof_err (fd : Int) (e : IterEnv) : Prop :=
  e.select_rv ≠ 0 ∧ e.readfds fd = true ∧ e.drain_err.read_r = 0

/-! ## Concrete states used to evaluate the definitions -/

/-- The world of a run after `main` has set up both targets and forked: `out` has its log
on descriptor 3 and its pipe read end on 4, `err` has 6 and 7. -/
def w0 : World where
  fds := fun fd =>
    if fd = 3 then some (FdObj.file 0)
    else if fd = 4 then some (FdObj.pipe_r 0)
    else if fd = 6 then some (FdObj.file 1)
    else if fd = 7 then some (FdObj.pipe_r 1)
    else none
  pipes := fun _ => ⟨[], false⟩
  files := fun _ => []
  trace := []

/-- The target `out` after set-up. -/
def out0 : stdlog_t := ⟨"out.log", 3, 4, 5, 0⟩

/-- The target `err` after set-up. -/
def err0 : stdlog_t := ⟨"err.log", 6, 7, 8, 0⟩

/-- The globals after set-up: default signal 1 (`SIGHUP`), child 100, no forwarding. -/
def g0 : Globals := ⟨out0, err0, 1, 100, 0, 0⟩

/-- A zero-filled target with only its path set, as before the first `init_log`. -/
def fresh0 : stdlog_t := ⟨"out.log", 0, 0, 0, 0⟩

/-- The world before any descriptor is opened. -/
def w_empty : World where
  fds := fun _ => none
  pipes := fun _ => ⟨[], false⟩
  files := fun _ => []
  trace := []

/-- Answers with which every call of `deinit_log` succeeds. -/
def deinit_ok : DeinitEnv := ⟨0, 0⟩

/-- Answers of a drain: `read` returns `r`, `write` returns `wr`. -/
def drain_env (r wr : Int) : DrainEnv := ⟨r, wr, deinit_ok⟩

/-- Answers of an `init_log` whose `open` succeeds with descriptor 3 and whose
`pipe` fails. -/
def init_pipe_fails : InitEnv := ⟨0, 3, 0, -1, 0, 0, 0⟩

/-- Answers of an `init_log` whose `close` succeeds and whose `open` fails. -/
def init_open_fails : InitEnv := ⟨0, -1, 0, -1, 0, 0, 0⟩

/-- Answers of an `init_log` whose `close` succeeds and whose `open` returns `fd` for
file `ino`. -/
def init_reopen (fd : Int) (ino : Nat) : InitEnv := ⟨0, fd, ino, -1, 0, 0, 0⟩

/-- Answers for an `init_log` that is not expected to run. -/
def init_unused : InitEnv := ⟨0, -1, 0, -1, 0, 0, 0⟩

/-- An iteration without signal: the child events, the result of `select`, the ready
set and the answers to the two drains. -/
def iter_plain (child : List ChildEv) (rv : Int) (ready : Int → Bool)
    (d_out d_err : DrainEnv) : IterEnv :=
  ⟨child, false, 0, init_unused, init_unused, rv, ready, d_out, d_err⟩

/-- The loop state at the start of `pipe_to_logs` after set-up. -/
def s0 : LoopSt := ⟨g0, w0, EXIT_SUCCESS⟩

/-- An iteration in which `select` fails. -/
def it_select_fails : IterEnv :=
  iter_plain [] (-1) (fun _ => false) (drain_env 0 0) (drain_env 0 0)

/-- An iteration in which the child closes its standard output and the loop reads
end of stream on `out` only. -/
def it_out_eof : IterEnv :=
  iter_plain [⟨0, [], true⟩] 1 (fun fd => fd = 4) (drain_env 0 0) (drain_env 0 0)

/-- An iteration before which the signal arrives and the child writes three bytes to its
standard error; both reopens succeed (`out` gets descriptor 3 for file 2, `err`
descriptor 6 for file 3), `select` reports the read end of `err` and its drain succeeds. -/
def it_rotate : IterEnv :=
  ⟨[⟨1, [101, 114, 10], false⟩], true, 0, init_reopen 3 2, init_reopen 6 3, 1,
    fun fd => fd = 7, drain_env 0 0, drain_env 3 3⟩

/-- An iteration before which the signal arrives again; the `close` of the descriptor of
`out` fails. -/
def it_rotate_close_fails : IterEnv :=
  ⟨[], true, 0, ⟨-1, 3, 2, -1, 0, 0, 0⟩, init_reopen 6 3, 1, fun fd => fd = 7,
    drain_env 0 0, drain_env 0 0⟩

/-- An iteration in which the child writes three bytes to its standard error, both read
ends are ready, the `read` on `out` fails and the drain of `err` succeeds. -/
def it_out_fails : IterEnv :=
  iter_plain [⟨1, [101, 114, 10], false⟩] 2 (fun _ => true) (drain_env (-1) 0)
    (drain_env 3 3)

/-- An iteration before which the signal arrives and the child closes both streams; the
reopen of `out` fails at `open`, the reopen of `err` succeeds; both drains read end of
stream. -/
def it_reopen_fails : IterEnv :=
  ⟨[⟨0, [], true⟩, ⟨1, [], true⟩], true, 0, init_open_fails, init_reopen 6 3, 2,
    fun _ => true, drain_env 0 0, drain_env 0 0⟩

/-- An iteration in which the child closes its standard error and the loop reads end of
stream on `err`. -/
def it_err_eof : IterEnv :=
  iter_plain [⟨1, [], true⟩] 1 (fun _ => true) (drain_env 0 0) (drain_env 0 0)

/-- The loop state after `out` has read end of stream: `out` is done, `err` is not. -/
def s_out_done : LoopSt := (loop_body it_out_eof s0).2

/-- An iteration in which the child writes six bytes to its standard output and three to
its standard error, and the loop drains both. -/
def it_both_write : IterEnv :=
  iter_plain [⟨0, [104, 101, 108, 108, 111, 10], false⟩, ⟨1, [101, 114, 10], false⟩] 2
    (fun _ => true) (drain_env 6 6) (drain_env 3 3)

/-- The world after set-up when both paths name the same file: descriptors 3 and 6 are
both open on file 0. -/
def w_shared : World where
  fds := fun fd =>
    if fd = 3 then some (FdObj.file 0)
    else if fd = 4 then some (FdObj.pipe_r 0)
    else if fd = 6 then some (FdObj.file 0)
    else if fd = 7 then some (FdObj.pipe_r 1)
    else none
  pipes := fun _ => ⟨[], false⟩
  files := fun _ => []
  trace := []

/-- The globals after set-up when both `-o` and `-e` name `app.log`. -/
def g_shared : Globals :=
  ⟨⟨"app.log", 3, 4, 5, 0⟩, ⟨"app.log", 6, 7, 8, 0⟩, 1, 100, 0, 0⟩

/-- An iteration in which the child writes one byte to each stream and closes both, and
the loop drains both. -/
def it_one_each : IterEnv :=
  iter_plain [⟨0, [97], true⟩, ⟨1, [98], true⟩] 2 (fun _ => true) (drain_env 1 1)
    (drain_env 1 1)

/-- An iteration without child events in which both drains read end of stream. -/
def it_eof_plain : IterEnv :=
  iter_plain [] 2 (fun _ => true) (drain_env 0 0) (drain_env 0 0)

/-- An iteration in which the child has closed both streams and both drains read end of
stream. -/
def it_both_eof : IterEnv :=
  iter_plain [⟨0, [], true⟩, ⟨1, [], true⟩] 2 (fun _ => true) (drain_env 0 0)
    (drain_env 0 0)

/-- The world `w0` with three bytes queued in the pipe of `out`. -/
def w_queued : World := { w0 with pipes := fun id => if id = 0 then ⟨[104, 105, 10], false⟩ else ⟨[], false⟩ }

/-! ## Theorems -/

/-! ### The three functions on a target, the signal handler and the exit code -/

/-- Bitwise or of two integers is zero exactly when both are zero. -/
theorem int_lor_eq_zero (a b : Int) : Int.lor a b = 0 ↔ a = 0 ∧ b = 0 := by
  cases a <;> cases b <;> simp [Int.lor]
  rename_i m n
  constructor
  · intro h
    constructor
    · apply Nat.eq_of_testBit_eq; intro i
      have := congrArg (fun x => Nat.testBit x i) h
      simp at this; simp [this.1]
    · apply Nat.eq_of_testBit_eq; intro i
      have := congrArg (fun x => Nat.testBit x i) h
      simp at this; simp [this.2]
  · rintro ⟨rfl, rfl⟩; rfl

/-- The function `deinit_log` always leaves `done = 1`, `path_fd = 0`, `pipe[0] = 0`, and
changes neither `path` nor `pipe[1]`. -/
theorem deinit_log_fields (log : stdlog_t) (w : World) (e : DeinitEnv) :
    (deinit_log log w e).1 = { log with path_fd := 0, pipe0 := 0, done := 1 } := by
  unfold deinit_log
  by_cases h1 : log.path_fd = 0 <;> by_cases h2 : log.pipe0 = 0 <;>
    simp [h1, h2]

/-- C2: `read_pipe_into_log` has three outcomes. (a) `read` returns n > 0 and `write`
returns n: result 1, target unchanged. (b) `read` returns 0: result 1 and the target ends
with done = 1, path_fd = 0, pipe[0] = 0. (c) `read` returns -1, or `read` returns n > 0
and `write` returns anything else: result 0 and the target ends with done = 1,
path_fd = 0, pipe[0] = 0. -/
theorem read_pipe_into_log_outcomes (log : stdlog_t) (w : World) (e : DrainEnv) :
    (0 < e.read_r → e.write_r = e.read_r →
      (read_pipe_into_log log w e).1 = 1 ∧ (read_pipe_into_log log w e).2.1 = log) ∧
    (e.read_r = 0 →
      (read_pipe_into_log log w e).1 = 1 ∧
      (read_pipe_into_log log w e).2.1.done = 1 ∧
      (read_pipe_into_log log w e).2.1.path_fd = 0 ∧
      (read_pipe_into_log log w e).2.1.pipe0 = 0) ∧
    (e.read_r = -1 ∨ (0 < e.read_r ∧ e.write_r ≠ e.read_r) →
      (read_pipe_into_log log w e).1 = 0 ∧
      (read_pipe_into_log log w e).2.1.done = 1 ∧
      (read_pipe_into_log log w e).2.1.path_fd = 0 ∧
      (read_pipe_into_log log w e).2.1.pipe0 = 0) := by
  refine ⟨?_, ?_, ?_⟩
  · intro hpos hw
    have h1 : ¬ (-1 = e.read_r) := by omega
    have h2 : ¬ (0 = e.read_r) := by omega
    simp [read_pipe_into_log, h1, h2, hw]
  · intro h0
    simp [read_pipe_into_log, h0, deinit_log_fields]
  · rintro (hm | ⟨hpos, hw⟩)
    · simp [read_pipe_into_log, hm, deinit_log_fields]
    · have h1 : ¬ (-1 = e.read_r) := by omega
      have h2 : ¬ (0 = e.read_r) := by omega
      have h3 : ¬ (e.read_r = e.write_r) := fun h => hw h.symm
      simp [read_pipe_into_log, h1, h2, h3, deinit_log_fields]

/-- C2 evaluated on the set-up target: a full write, an end of stream, a read error and a
short write. -/
theorem read_pipe_into_log_outcomes_witness :
    ((read_pipe_into_log out0 w_queued (drain_env 3 3)).1 = 1 ∧
      (read_pipe_into_log out0 w_queued (drain_env 3 3)).2.1 = out0) ∧
    ((read_pipe_into_log out0 w0 (drain_env 0 0)).1 = 1 ∧
      (read_pipe_into_log out0 w0 (drain_env 0 0)).2.1.done = 1 ∧
      (read_pipe_into_log out0 w0 (drain_env 0 0)).2.1.path_fd = 0 ∧
      (read_pipe_into_log out0 w0 (drain_env 0 0)).2.1.pipe0 = 0) ∧
    ((read_pipe_into_log out0 w_queued (drain_env 3 2)).1 = 0 ∧
      (read_pipe_into_log out0 w_queued (drain_env 3 2)).2.1.done = 1 ∧
      (read_pipe_into_log out0 w_queued (drain_env 3 2)).2.1.path_fd = 0 ∧
      (read_pipe_into_log out0 w_queued (drain_env 3 2)).2.1.pipe0 = 0) :=
  ⟨(read_pipe_into_log_outcomes out0 w_queued (drain_env 3 3)).1 (by decide) (by decide),
   (read_pipe_into_log_outcomes out0 w0 (drain_env 0 0)).2.1 (by decide),
   (read_pipe_into_log_outcomes out0 w_queued (drain_env 3 2)).2.2
     (Or.inr ⟨by decide, by decide⟩)⟩

/-- C9: `handle_hup` sets hupped = 1; it issues `kill(child_pid, signo)` exactly once
when forward_sig != 0 and child_pid != 0 (followed by `perror` when `kill` returned -1)
and issues nothing otherwise; signo, child_pid, forward_sig, both targets, and the
descriptors, pipes and files of the world are unchanged; it returns for every result of
`kill`. -/
theorem handle_hup_spec (g : Globals) (w : World) (kill_r : Int) :
    (handle_hup g w kill_r).1 = { g with hupped := 1 } ∧
    (handle_hup g w kill_r).2.fds = w.fds ∧
    (handle_hup g w kill_r).2.pipes = w.pipes ∧
    (handle_hup g w kill_r).2.files = w.files ∧
    (handle_hup g w kill_r).2.trace = w.trace ++
      (if g.forward_sig ≠ 0 ∧ g.child_pid ≠ 0 then
        SysCall.c_kill g.child_pid g.signo kill_r ::
          (if kill_r = -1 then [SysCall.c_perror "kill(child_pid)"] else [])
      else []) := by
  unfold handle_hup
  by_cases h : g.forward_sig ≠ 0 ∧ g.child_pid ≠ 0
  · by_cases hk : kill_r = -1
    · simp [h, hk, sys_kill, perror, World.emit]
    · have hk2 : ¬ (-1 = kill_r) := fun h => hk h.symm
      simp [h, hk, hk2, sys_kill, World.emit]
  · simp [h]

/-- C10: `main` returns c | s when `waitpid` succeeds and the child exited normally with
status s, c when `waitpid` succeeds and the child did not exit normally, c | 1 when
`waitpid` fails; the result is 0 exactly when c = 0, `waitpid` succeeded and the child
exited with status 0 or did not exit normally. -/
theorem main_exit_spec (c wait_r wait_status : Int) :
    (wait_r ≠ -1 → WIFEXITED wait_status = true →
      main_exit c wait_r wait_status = Int.lor c (WEXITSTATUS wait_status)) ∧
    (wait_r ≠ -1 → WIFEXITED wait_status = false → main_exit c wait_r wait_status = c) ∧
    (wait_r = -1 → main_exit c wait_r wait_status = Int.lor c 1) ∧
    (main_exit c wait_r wait_status = 0 ↔
      c = 0 ∧ wait_r ≠ -1 ∧
        ((WIFEXITED wait_status = true ∧ WEXITSTATUS wait_status = 0) ∨
          WIFEXITED wait_status = false)) := by
  have hz : Int.lor c 0 = c := by
    cases c with
    | ofNat m => simp [Int.lor]
    | negSucc m =>
      have : Nat.ldiff m 0 = m := by
        apply Nat.eq_of_testBit_eq; intro i
        simp [Nat.testBit_ldiff]
      show Int.negSucc (Nat.ldiff m 0) = Int.negSucc m
      rw [this]
  refine ⟨?_, ?_, ?_, ?_⟩
  · intro h1 h2
    have h1' : ¬ (-1 = wait_r) := fun h => h1 h.symm
    simp [main_exit, h1', h2]
  · intro h1 h2
    have h1' : ¬ (-1 = wait_r) := fun h => h1 h.symm
    simp [main_exit, h1', h2, hz]
  · intro h1
    simp [main_exit, h1]
  · by_cases h1 : wait_r = -1
    · simp [main_exit, h1, int_lor_eq_zero]
    · have h1' : ¬ (-1 = wait_r) := fun h => h1 h.symm
      by_cases h2 : WIFEXITED wait_status = true
      · simp [main_exit, h1, h1', h2, int_lor_eq_zero]
      · simp at h2
        simp [main_exit, h1, h1', h2, hz]

/-- C10 evaluated: loop code 0 and a child that exited with status 3 (wait status
768), a child killed by signal 9, and a failed `waitpid`. -/
theorem main_exit_spec_witness :
    main_exit 0 100 768 = Int.lor 0 (WEXITSTATUS 768) ∧
    main_exit 1 100 9 = 1 ∧
    main_exit 0 (-1) 0 = Int.lor 0 1 :=
  ⟨(main_exit_spec 0 100 768).1 (by decide) (by decide),
   (main_exit_spec 1 100 9).2.1 (by decide) (by decide),
   (main_exit_spec 0 (-1) 0).2.2.1 (by decide)⟩

/-- The result of `init_log` when the `close` of the old descriptor fails. -/
theorem init_log_close_fail (log : stdlog_t) (w : World) (e : InitEnv)
    (h1 : log.path_fd ≠ 0) (h2 : e.close_r ≠ 0) :
    init_log log w e =
      (0, log, perror (sys_close w log.path_fd e.close_r) "close(log->path_fd)") := by
  have hc : log.path_fd ≠ 0 ∧ 0 ≠ e.close_r := ⟨h1, fun h => h2 h.symm⟩
  simp only [init_log]
  rw [if_pos hc]

/-- The result of `init_log` when `close` does not fail and `open` fails. -/
theorem init_log_open_fail (log : stdlog_t) (w : World) (e : InitEnv)
    (hc : ¬ (log.path_fd ≠ 0 ∧ e.close_r ≠ 0)) (ho : e.open_r = -1) :
    init_log log w e =
      (0, { log with path_fd := 0 },
        perror (sys_open (after_close log w e) log.path e.open_r e.open_ino)
          "open(log->path)") := by
  have hc2 : ¬ (log.path_fd ≠ 0 ∧ 0 ≠ e.close_r) := fun h => hc ⟨h.1, fun h0 => h.2 h0.symm⟩
  simp only [init_log, after_close]
  rw [if_neg hc2, if_pos ho.symm]

/-- The result of `init_log` when `close` does not fail, `open` succeeds and the pipe
exists already. -/
theorem init_log_reopen (log : stdlog_t) (w : World) (e : InitEnv)
    (hc : ¬ (log.path_fd ≠ 0 ∧ e.close_r ≠ 0)) (ho : e.open_r ≠ -1)
    (hp : ¬ (log.pipe0 = 0 ∧ log.pipe1 = 0)) :
    init_log log w e =
      (1, { log with path_fd := e.open_r },
        sys_open (after_close log w e) log.path e.open_r e.open_ino) := by
  have hc2 : ¬ (log.path_fd ≠ 0 ∧ 0 ≠ e.close_r) := fun h => hc ⟨h.1, fun h0 => h.2 h0.symm⟩
  have ho2 : ¬ (-1 = e.open_r) := fun h => ho h.symm
  have hp2 : ¬ (0 = log.pipe0 ∧ 0 = log.pipe1) := fun h => hp ⟨h.1.symm, h.2.symm⟩
  simp only [init_log, after_close]
  rw [if_neg hc2, if_neg ho2, if_neg hp2]

/-- The result of `init_log` when `close` does not fail, `open` succeeds and `pipe` is
called. -/
theorem init_log_pipe (log : stdlog_t) (w : World) (e : InitEnv)
    (hc : ¬ (log.path_fd ≠ 0 ∧ e.close_r ≠ 0)) (ho : e.open_r ≠ -1)
    (hp : log.pipe0 = 0 ∧ log.pipe1 = 0) :
    init_log log w e =
      (if e.pipe_r = -1 then
        (0, { log with path_fd := e.open_r },
          perror (sys_pipe (sys_open (after_close log w e) log.path e.open_r e.open_ino)
            e.pipe_r e.pipe_p0 e.pipe_p1 e.pipe_id) "pipe(log->pipe)")
      else
        (1, if e.pipe_r = 0 then
            { log with path_fd := e.open_r, pipe0 := e.pipe_p0, pipe1 := e.pipe_p1 }
          else { log with path_fd := e.open_r },
          sys_pipe (sys_open (after_close log w e) log.path e.open_r e.open_ino)
            e.pipe_r e.pipe_p0 e.pipe_p1 e.pipe_id)) := by
  have hc2 : ¬ (log.path_fd ≠ 0 ∧ 0 ≠ e.close_r) := fun h => hc ⟨h.1, fun h0 => h.2 h0.symm⟩
  have ho2 : ¬ (-1 = e.open_r) := fun h => ho h.symm
  have hp2 : 0 = log.pipe0 ∧ 0 = log.pipe1 := ⟨hp.1.symm, hp.2.symm⟩
  simp only [init_log, after_close]
  rw [if_neg hc2, if_neg ho2, if_pos hp2]
  by_cases hpr : e.pipe_r = -1
  · rw [if_pos hpr.symm, if_pos hpr]
  · have hpr2 : ¬ (-1 = e.pipe_r) := fun h => hpr h.symm
    rw [if_neg hpr2, if_neg hpr]
    by_cases hz : e.pipe_r = 0
    · rw [if_pos hz, if_pos hz]
    · rw [if_neg hz, if_neg hz]

/-- Closing a descriptor opens none. -/
theorem after_close_fds (log : stdlog_t) (w : World) (e : InitEnv) (fd : Int)
    (h : (after_close log w e).fds fd ≠ none) : w.fds fd ≠ none := by
  unfold after_close at h
  by_cases hp : log.path_fd ≠ 0
  · rw [if_pos hp] at h
    unfold sys_close at h
    by_cases hr : e.close_r = 0
    · simp only [hr, if_true] at h
      by_cases hfd : fd = log.path_fd
      · subst hfd; simp at h
      · rwa [Function.update_noteq hfd] at h
    · simpa only [hr, if_false] using h
  · rwa [if_neg hp] at h

/-- C8 as stated fails: the first `init_log` of a zero-filled target whose `open` succeeds
with descriptor 3 and whose `pipe` fails returns 0 with path_fd = 3, and descriptor 3,
opened by this call, is still open. -/
theorem init_log_failure_keeps_fd :
    (init_log fresh0 w_empty init_pipe_fails).1 = 0 ∧
    (init_log fresh0 w_empty init_pipe_fails).2.1.path_fd = 3 ∧
    w_empty.fds 3 = none ∧
    (init_log fresh0 w_empty init_pipe_fails).2.2.fds 3 = some (FdObj.file 0) := by
  decide

/-- C8 amended: when `init_log` returns 0, one of three things happened. Either the
`close` of the old descriptor failed: the target is unchanged (path_fd keeps its nonzero
value), no `open` was issued and the descriptor table is unchanged. Or `open` failed:
path_fd = 0 and no descriptor is open that was not open before. Or `open` succeeded and
`pipe` failed: path_fd is the descriptor just opened, and it is still open. -/
theorem init_log_failure (log : stdlog_t) (w : World) (e : InitEnv)
    (h : (init_log log w e).1 = 0) :
    (log.path_fd ≠ 0 ∧ e.close_r ≠ 0 ∧
      (init_log log w e).2.1 = log ∧
      (init_log log w e).2.2.fds = w.fds ∧
      (init_log log w e).2.2.trace = w.trace ++
        [SysCall.c_close log.path_fd e.close_r, SysCall.c_perror "close(log->path_fd)"]) ∨
    (e.open_r = -1 ∧
      (init_log log w e).2.1 = { log with path_fd := 0 } ∧
      ∀ fd, (init_log log w e).2.2.fds fd ≠ none → w.fds fd ≠ none) ∨
    (e.open_r ≠ -1 ∧ e.pipe_r = -1 ∧ log.pipe0 = 0 ∧ log.pipe1 = 0 ∧
      (init_log log w e).2.1 = { log with path_fd := e.open_r } ∧
      (0 ≤ e.open_r →
        (init_log log w e).2.2.fds e.open_r = some (FdObj.file e.open_ino))) := by
  by_cases hc : log.path_fd ≠ 0 ∧ e.close_r ≠ 0
  · left
    rw [init_log_close_fail log w e hc.1 hc.2]
    refine ⟨hc.1, hc.2, rfl, ?_, ?_⟩
    · simp [perror, World.emit, sys_close, hc.2]
    · simp [perror, World.emit, sys_close]
  · right
    by_cases ho : e.open_r = -1
    · left
      rw [init_log_open_fail log w e hc ho]
      refine ⟨ho, rfl, ?_⟩
      intro fd hfd
      apply after_close_fds log w e fd
      have hneg : ¬ (0 ≤ e.open_r) := by omega
      simpa [perror, World.emit, sys_open, hneg] using hfd
    · right
      by_cases hp : log.pipe0 = 0 ∧ log.pipe1 = 0
      · rw [init_log_pipe log w e hc ho hp] at h ⊢
        by_cases hpr : e.pipe_r = -1
        · rw [if_pos hpr]
          refine ⟨ho, hpr, hp.1, hp.2, rfl, ?_⟩
          intro hge
          have hnz : ¬ (e.pipe_r = 0) := by omega
          simp [perror, World.emit, sys_pipe, sys_open, hge, hnz]
        · rw [if_neg hpr] at h
          exact absurd h (by simp)
      · rw [init_log_reopen log w e hc ho hp] at h
        exact absurd h (by simp)

/-- C8 amended, evaluated on the set-up target `out0` when `open` fails. -/
theorem init_log_failure_witness :
    (init_log out0 w0 init_open_fails).1 = 0 ∧
    ((out0.path_fd ≠ 0 ∧ init_open_fails.close_r ≠ 0 ∧
      (init_log out0 w0 init_open_fails).2.1 = out0 ∧
      (init_log out0 w0 init_open_fails).2.2.fds = w0.fds ∧
      (init_log out0 w0 init_open_fails).2.2.trace = w0.trace ++
        [SysCall.c_close out0.path_fd init_open_fails.close_r,
          SysCall.c_perror "close(log->path_fd)"]) ∨
    (init_open_fails.open_r = -1 ∧
      (init_log out0 w0 init_open_fails).2.1 = { out0 with path_fd := 0 } ∧
      ∀ fd, (init_log out0 w0 init_open_fails).2.2.fds fd ≠ none → w0.fds fd ≠ none) ∨
    (init_open_fails.open_r ≠ -1 ∧ init_open_fails.pipe_r = -1 ∧ out0.pipe0 = 0 ∧
      out0.pipe1 = 0 ∧
      (init_log out0 w0 init_open_fails).2.1 =
        { out0 with path_fd := init_open_fails.open_r } ∧
      (0 ≤ init_open_fails.open_r →
        (init_log out0 w0 init_open_fails).2.2.fds init_open_fails.open_r =
          some (FdObj.file init_open_fails.open_ino)))) :=
  ⟨by decide, init_log_failure out0 w0 init_open_fails (by decide)⟩

/-- The result of a drain whose `read` returns n > 0 and whose `write` returns n. -/
theorem read_pipe_into_log_ok (log : stdlog_t) (w : World) (d : DrainEnv)
    (hpos : 0 < d.read_r) (hw : d.write_r = d.read_r) :
    read_pipe_into_log log w d =
      (1, log, sys_write (sys_read w log.pipe0 PIPE_BUF d.read_r).2 log.path_fd
        (sys_read w log.pipe0 PIPE_BUF d.read_r).1 d.read_r d.write_r) := by
  have h1 : ¬ (-1 = d.read_r) := by omega
  have h2 : ¬ (0 = d.read_r) := by omega
  have h3 : ¬ (d.read_r ≠ d.write_r) := fun h => h hw.symm
  simp only [read_pipe_into_log]
  rw [if_neg h1, if_neg h2, if_neg h3]

/-- C3: rotation of a live target. If the target is not done, has an open log file
(path_fd != 0) and an existing pipe, and `close` and `open` succeed (`open` returning a
descriptor that is free), then `init_log` returns 1, changes no field but path_fd, which
becomes the new descriptor, issues only `close` and `open` (no `pipe`), and leaves every
pipe queue unchanged. Consequently, in any later world in which the descriptors are as
`init_log` left them and the pipe holds the bytes queued at rotation (possibly followed
by newer ones), a successful drain (read n > 0, write n) appends the first n queued bytes
to the file behind the new descriptor and leaves the remaining bytes queued: none is
lost. -/
theorem init_log_rotation (log : stdlog_t) (w : World) (e : InitEnv) (id ino : Nat)
    (_hdone : log.done = 0) (hfd : log.path_fd ≠ 0)
    (hfile : w.fds log.path_fd = some (FdObj.file ino))
    (hpipe : w.fds log.pipe0 = some (FdObj.pipe_r id))
    (hne : log.pipe0 ≠ log.pipe1)
    (hclose : e.close_r = 0) (hopen : 0 ≤ e.open_r)
    (hfree : (sys_close w log.path_fd e.close_r).fds e.open_r = none) :
    (init_log log w e).1 = 1 ∧
    (init_log log w e).2.1 = { log with path_fd := e.open_r } ∧
    (init_log log w e).2.2.pipes = w.pipes ∧
    (init_log log w e).2.2.trace = w.trace ++
      [SysCall.c_close log.path_fd 0, SysCall.c_open log.path e.open_r] ∧
    (init_log log w e).2.2.fds log.pipe0 = some (FdObj.pipe_r id) ∧
    (init_log log w e).2.2.fds e.open_r = some (FdObj.file e.open_ino) ∧
    ∀ (w2 : World) (d : DrainEnv) (extra : List Byte),
      w2.fds log.pipe0 = some (FdObj.pipe_r id) →
      w2.fds e.open_r = some (FdObj.file e.open_ino) →
      (w2.pipes id).queue = (w.pipes id).queue ++ extra →
      0 < d.read_r → d.read_r.toNat ≤ ((w.pipes id).queue ++ extra).length →
      d.write_r = d.read_r →
      (read_pipe_into_log (init_log log w e).2.1 w2 d).1 = 1 ∧
      (read_pipe_into_log (init_log log w e).2.1 w2 d).2.1 = (init_log log w e).2.1 ∧
      (read_pipe_into_log (init_log log w e).2.1 w2 d).2.2.files e.open_ino =
        w2.files e.open_ino ++ ((w.pipes id).queue ++ extra).take d.read_r.toNat ∧
      ((read_pipe_into_log (init_log log w e).2.1 w2 d).2.2.pipes id).queue =
        ((w.pipes id).queue ++ extra).drop d.read_r.toNat ∧
      (read_pipe_into_log (init_log log w e).2.1 w2 d).2.2.trace = w2.trace ++
        [SysCall.c_read log.pipe0 PIPE_BUF d.read_r,
         SysCall.c_write e.open_r (((w.pipes id).queue ++ extra).take d.read_r.toNat)
           d.read_r d.read_r] := by
  have hc : ¬ (log.path_fd ≠ 0 ∧ e.close_r ≠ 0) := fun h => h.2 hclose
  have ho : e.open_r ≠ -1 := by omega
  have hp : ¬ (log.pipe0 = 0 ∧ log.pipe1 = 0) := fun h => hne (h.1.trans h.2.symm)
  have hpf : log.pipe0 ≠ log.path_fd := by
    intro h; rw [h, hfile] at hpipe; cases hpipe
  have hpo : log.pipe0 ≠ e.open_r := by
    intro h
    rw [← h] at hfree
    simp [sys_close, hclose, Function.update_noteq hpf, hpipe] at hfree
  rw [init_log_reopen log w e hc ho hp]
  refine ⟨rfl, rfl, ?_, ?_, ?_, ?_, ?_⟩
  · simp [sys_open, after_close, hfd, sys_close]
  · simp [sys_open, after_close, hfd, sys_close, hclose]
  · simp [sys_open, after_close, hfd, sys_close, hclose, hopen, Function.update_noteq hpo,
      Function.update_noteq hpf, hpipe]
  · simp [sys_open, hopen]
  · intro w2 d extra h1 h2 h3 hpos _hlen hw
    rw [read_pipe_into_log_ok _ w2 d hpos hw]
    simp only [sys_read, h1, hpos, if_true, sys_write, h2, hw]
    refine ⟨trivial, trivial, ?_, ?_, ?_⟩
    · simp [h3, List.take_take]
    · simp [h3]
    · simp [h3]

/-- C3 evaluated: `out0` with three bytes queued is reopened on descriptor 3, now file 2;
the drain right after the rotation puts the three bytes into file 2. -/
theorem init_log_rotation_witness :
    (init_log out0 w_queued (init_reopen 3 2)).1 = 1 ∧
    (init_log out0 w_queued (init_reopen 3 2)).2.2.pipes = w_queued.pipes ∧
    (read_pipe_into_log (init_log out0 w_queued (init_reopen 3 2)).2.1
      (init_log out0 w_queued (init_reopen 3 2)).2.2 (drain_env 3 3)).2.2.files 2 =
      (init_log out0 w_queued (init_reopen 3 2)).2.2.files 2 ++
        ((w_queued.pipes 0).queue ++ []).take 3 :=
  have h := init_log_rotation out0 w_queued (init_reopen 3 2) 0 0 (by decide) (by decide)
    (by decide) (by decide) (by decide) (by decide) (by decide) (by decide)
  ⟨h.1, h.2.2.1,
    (h.2.2.2.2.2.2 (init_log out0 w_queued (init_reopen 3 2)).2.2 (drain_env 3 3) []
      h.2.2.2.2.1 h.2.2.2.2.2.1 (by decide) (by decide) (by decide) (by decide)).2.2.1⟩


/-! ### The capture loop: general facts -/

/-- The function `init_log` never changes `done`, `path`. -/
theorem init_log_done (log : stdlog_t) (w : World) (e : InitEnv) :
    (init_log log w e).2.1.done = log.done ∧ (init_log log w e).2.1.path = log.path := by
  simp only [init_log]
  split_ifs <;> exact ⟨rfl, rfl⟩

/-- The environment's part of an iteration changes no target and not `exit_code`. -/
theorem iter_env_frame (e : IterEnv) (s : LoopSt) :
    (iter_env e s).g.out = s.g.out ∧ (iter_env e s).g.err = s.g.err ∧
    (iter_env e s).exit_code = s.exit_code := by
  simp only [iter_env, handle_hup]
  split_ifs <;> exact ⟨rfl, rfl, rfl⟩

/-- The rotation check keeps `done` of both targets and `exit_code`. -/
theorem iter_hup_done (e : IterEnv) (s : LoopSt) :
    (iter_hup e s).g.out.done = s.g.out.done ∧ (iter_hup e s).g.err.done = s.g.err.done ∧
    (iter_hup e s).exit_code = s.exit_code := by
  simp only [iter_hup]
  split_ifs
  · exact ⟨(init_log_done _ _ _).1, (init_log_done _ _ _).1, rfl⟩
  · exact ⟨rfl, rfl, rfl⟩

/-- Up to `select`, an iteration keeps `done` of both targets and `exit_code`. -/
theorem before_select_done (e : IterEnv) (s : LoopSt) :
    (before_select e s).g.out.done = s.g.out.done ∧
    (before_select e s).g.err.done = s.g.err.done ∧
    (before_select e s).exit_code = s.exit_code := by
  unfold before_select
  obtain ⟨h1, h2, h3⟩ := iter_hup_done e (iter_env e s)
  obtain ⟨k1, k2, k3⟩ := iter_env_frame e s
  rw [h1, h2, h3, k1, k2, k3]
  exact ⟨rfl, rfl, rfl⟩

/-- Draining `out` changes no field of `err`. -/
theorem iter_drain_out_err (e : IterEnv) (rs : Int → Bool) (s : LoopSt) :
    (iter_drain_out e rs s).g.err = s.g.err := by
  simp only [iter_drain_out]
  split_ifs <;> rfl

/-- Draining `err` changes no field of `out`. -/
theorem iter_drain_err_out (e : IterEnv) (rs : Int → Bool) (s : LoopSt) :
    (iter_drain_err e rs s).g.out = s.g.out := by
  simp only [iter_drain_err]
  split_ifs <;> rfl

/-- A target that is done is not drained. -/
theorem iter_drain_out_skip (e : IterEnv) (rs : Int → Bool) (s : LoopSt)
    (h : s.g.out.done ≠ 0) : iter_drain_out e rs s = s := by
  simp only [iter_drain_out]
  rw [if_neg (fun hc => h hc.1)]

/-- A target that is done is not drained. -/
theorem iter_drain_err_skip (e : IterEnv) (rs : Int → Bool) (s : LoopSt)
    (h : s.g.err.done ≠ 0) : iter_drain_err e rs s = s := by
  simp only [iter_drain_err]
  rw [if_neg (fun hc => h hc.1)]

/-- The result of a drain that fails. -/
theorem read_pipe_into_log_fails (log : stdlog_t) (w : World) (d : DrainEnv)
    (h : drain_fails d) :
    (read_pipe_into_log log w d).1 = 0 ∧ (read_pipe_into_log log w d).2.1.done = 1 := by
  rcases h with hm | ⟨hpos, hw⟩
  · simp [read_pipe_into_log, hm, deinit_log_fields]
  · have h1 : ¬ (-1 = d.read_r) := by omega
    have h2 : ¬ (0 = d.read_r) := by omega
    have h3 : ¬ (d.read_r = d.write_r) := fun h => hw h.symm
    simp [read_pipe_into_log, h1, h2, h3, deinit_log_fields]

/-- A drain leaves `done` at 0 or 1 and never clears it; its result is 0 or 1. -/
theorem read_pipe_into_log_done (log : stdlog_t) (w : World) (d : DrainEnv) :
    ((read_pipe_into_log log w d).2.1.done = log.done ∨
      (read_pipe_into_log log w d).2.1.done = 1) := by
  simp only [read_pipe_into_log]
  split_ifs
  · right; simp [deinit_log_fields]
  · right; simp [deinit_log_fields]
  · right; simp [deinit_log_fields]
  · left; rfl

/-- Draining keeps an `exit_code` that is already `EXIT_FAILURE`. -/
theorem iter_drain_out_sticky (e : IterEnv) (rs : Int → Bool) (s : LoopSt)
    (h : s.exit_code = EXIT_FAILURE) : (iter_drain_out e rs s).exit_code = EXIT_FAILURE := by
  simp only [iter_drain_out]
  split_ifs <;> simp [h]

/-- Draining keeps an `exit_code` that is already `EXIT_FAILURE`. -/
theorem iter_drain_err_sticky (e : IterEnv) (rs : Int → Bool) (s : LoopSt)
    (h : s.exit_code = EXIT_FAILURE) : (iter_drain_err e rs s).exit_code = EXIT_FAILURE := by
  simp only [iter_drain_err]
  split_ifs <;> simp [h]

/-- The iteration when `select` returns -1: `perror`, `exit_code = EXIT_FAILURE`,
`break`. -/
theorem loop_body_brk (e : IterEnv) (s : LoopSt) (h : e.select_rv = -1) :
    loop_body e s = (LoopCtl.brk,
      { iter_select e (before_select e s) with
        w := perror (iter_select e (before_select e s)).w "select",
        exit_code := EXIT_FAILURE }) := by
  simp only [loop_body]
  rw [if_pos h.symm]

/-- The iteration when `select` returns 0: `continue`. -/
theorem loop_body_zero (e : IterEnv) (s : LoopSt) (h : e.select_rv = 0) :
    loop_body e s = (LoopCtl.next, iter_select e (before_select e s)) := by
  have h1 : ¬ (-1 = e.select_rv) := by omega
  simp only [loop_body]
  rw [if_neg h1, if_pos h.symm]

/-- The iteration when `select` returns neither -1 nor 0: the two drains. -/
theorem loop_body_drain (e : IterEnv) (s : LoopSt) (h1 : e.select_rv ≠ -1)
    (h0 : e.select_rv ≠ 0) :
    loop_body e s = (LoopCtl.next,
      iter_drain_err e (select_result e (before_select e s).g)
        (iter_drain_out e (select_result e (before_select e s).g)
          (iter_select e (before_select e s)))) := by
  have h1' : ¬ (-1 = e.select_rv) := fun h => h1 h.symm
  have h0' : ¬ (0 = e.select_rv) := fun h => h0 h.symm
  simp only [loop_body]
  rw [if_neg h1', if_neg h0']

/-- An iteration keeps an `exit_code` that is already `EXIT_FAILURE`. -/
theorem loop_body_sticky (e : IterEnv) (s : LoopSt) (h : s.exit_code = EXIT_FAILURE) :
    (loop_body e s).2.exit_code = EXIT_FAILURE := by
  by_cases h1 : e.select_rv = -1
  · rw [loop_body_brk e s h1]
  · by_cases h0 : e.select_rv = 0
    · rw [loop_body_zero e s h0]
      simp only [iter_select]
      rw [(before_select_done e s).2.2, h]
    · rw [loop_body_drain e s h1 h0]
      apply iter_drain_err_sticky
      apply iter_drain_out_sticky
      simp only [iter_select]
      rw [(before_select_done e s).2.2, h]

/-- An iteration ends by `break` exactly when `select` returned -1. -/
theorem loop_body_ctl (e : IterEnv) (s : LoopSt) :
    (loop_body e s).1 = LoopCtl.brk ↔ e.select_rv = -1 := by
  by_cases h1 : e.select_rv = -1
  · rw [loop_body_brk e s h1]; simp [h1]
  · by_cases h0 : e.select_rv = 0
    · rw [loop_body_zero e s h0]; simp [h1]
    · rw [loop_body_drain e s h1 h0]; simp [h1]

/-- A `done` flag that is set stays as it is through an iteration. -/
theorem loop_body_done (e : IterEnv) (s : LoopSt) :
    (s.g.out.done ≠ 0 → (loop_body e s).2.g.out.done = s.g.out.done) ∧
    (s.g.err.done ≠ 0 → (loop_body e s).2.g.err.done = s.g.err.done) := by
  obtain ⟨b1, b2, _⟩ := before_select_done e s
  by_cases h1 : e.select_rv = -1
  · rw [loop_body_brk e s h1]
    simp only [iter_select]
    exact ⟨fun _ => b1, fun _ => b2⟩
  · by_cases h0 : e.select_rv = 0
    · rw [loop_body_zero e s h0]
      simp only [iter_select]
      exact ⟨fun _ => b1, fun _ => b2⟩
    · rw [loop_body_drain e s h1 h0]
      constructor
      · intro hd
        rw [iter_drain_err_out, iter_drain_out_skip]
        · simpa [iter_select] using b1
        · simpa [iter_select, b1] using hd
      · intro hd
        rw [iter_drain_err_skip]
        · rw [iter_drain_out_err]
          simpa [iter_select] using b2
        · rw [iter_drain_out_err]
          simpa [iter_select, b2] using hd

/-- How the loop can be left: with both targets done, or by the `break` that follows a
`select` returning -1, with `exit_code = EXIT_FAILURE`. -/
theorem loop_exit_cases (es : List IterEnv) (s : LoopSt) (c : LoopCtl) (s' : LoopSt)
    (h : pipe_to_logs_loop es s = some (c, s')) :
    (c = LoopCtl.next ∧ s'.g.out.done ≠ 0 ∧ s'.g.err.done ≠ 0) ∨
    (c = LoopCtl.brk ∧ s'.exit_code = EXIT_FAILURE ∧
      ∃ tr nfds, s'.w.trace =
        tr ++ [SysCall.c_select nfds (-1), SysCall.c_perror "select"]) := by
  induction es generalizing s with
  | nil =>
    simp only [pipe_to_logs_loop] at h
    split_ifs at h with hc
    simp only [Option.some.injEq, Prod.mk.injEq] at h
    obtain ⟨rfl, rfl⟩ := h
    left
    simpa [loop_cond] using hc
  | cons e es ih =>
    simp only [pipe_to_logs_loop] at h
    split_ifs at h with hc
    · by_cases h1 : e.select_rv = -1
      · rw [loop_body_brk e s h1] at h
        simp only [Option.some.injEq, Prod.mk.injEq] at h
        obtain ⟨rfl, rfl⟩ := h
        right
        refine ⟨rfl, rfl, (before_select e s).w.trace, select_nfds (before_select e s).g, ?_⟩
        simp [perror, World.emit, iter_select, h1]
      · have hn : (loop_body e s).1 = LoopCtl.next := by
          cases hl : (loop_body e s).1 with
          | next => rfl
          | brk => exact absurd ((loop_body_ctl e s).1 hl) h1
        have hb : loop_body e s = (LoopCtl.next, (loop_body e s).2) := by
          rw [← hn]
        rw [hb] at h
        exact ih _ h
    · simp only [Option.some.injEq, Prod.mk.injEq] at h
      obtain ⟨rfl, rfl⟩ := h
      left
      simpa [loop_cond] using hc

/-- Once `exit_code` is `EXIT_FAILURE` the loop can only be left with that code. -/
theorem loop_sticky (es : List IterEnv) (s : LoopSt) (c : LoopCtl) (s' : LoopSt)
    (h : pipe_to_logs_loop es s = some (c, s')) (hx : s.exit_code = EXIT_FAILURE) :
    s'.exit_code = EXIT_FAILURE := by
  induction es generalizing s with
  | nil =>
    simp only [pipe_to_logs_loop] at h
    split_ifs at h
    simp only [Option.some.injEq, Prod.mk.injEq] at h
    rw [← h.2]; exact hx
  | cons e es ih =>
    simp only [pipe_to_logs_loop] at h
    split_ifs at h
    · have hs := loop_body_sticky e s hx
      cases hl : loop_body e s with
      | mk c1 s1 =>
        rw [hl] at h hs
        cases c1 with
        | brk =>
          simp only [Option.some.injEq, Prod.mk.injEq] at h
          rw [← h.2]; exact hs
        | next => exact ih _ h hs
    · simp only [Option.some.injEq, Prod.mk.injEq] at h
      rw [← h.2]; exact hx

/-- Once `exit_code` is `EXIT_FAILURE` it is so in every later state of the loop. -/
theorem loop_steps_sticky (es : List IterEnv) (s s' : LoopSt)
    (h : loop_steps es s = some s') (hx : s.exit_code = EXIT_FAILURE) :
    s'.exit_code = EXIT_FAILURE := by
  induction es generalizing s with
  | nil =>
    simp only [loop_steps, Option.some.injEq] at h
    rw [← h]; exact hx
  | cons e es ih =>
    simp only [loop_steps] at h
    split_ifs at h
    have hs := loop_body_sticky e s hx
    cases hl : loop_body e s with
    | mk c1 s1 =>
      rw [hl] at h hs
      cases c1 with
      | brk => simp at h
      | next => exact ih _ h hs

/-- Running a script in two parts. -/
theorem loop_append (pre post : List IterEnv) (s0 s : LoopSt)
    (h : loop_steps pre s0 = some s) :
    pipe_to_logs_loop (pre ++ post) s0 = pipe_to_logs_loop post s := by
  induction pre generalizing s0 with
  | nil =>
    simp only [loop_steps, Option.some.injEq] at h
    rw [h]; rfl
  | cons e es ih =>
    simp only [loop_steps] at h
    split_ifs at h with hc
    cases hl : loop_body e s0 with
    | mk c1 s1 =>
      rw [hl] at h
      cases c1 with
      | brk => simp at h
      | next =>
        simp only [List.cons_append, pipe_to_logs_loop]
        rw [if_pos hc, hl]
        exact ih _ h

/-- A `done` flag that is set stays as it is for as long as the loop runs. -/
theorem loop_steps_done (es : List IterEnv) (s s' : LoopSt)
    (h : loop_steps es s = some s') :
    (s.g.out.done ≠ 0 → s'.g.out.done = s.g.out.done) ∧
    (s.g.err.done ≠ 0 → s'.g.err.done = s.g.err.done) := by
  induction es generalizing s with
  | nil =>
    simp only [loop_steps, Option.some.injEq] at h
    rw [h]; exact ⟨fun _ => rfl, fun _ => rfl⟩
  | cons e es ih =>
    simp only [loop_steps] at h
    split_ifs at h with hc
    have hd := loop_body_done e s
    cases hl : loop_body e s with
    | mk c1 s1 =>
      rw [hl] at h hd
      cases c1 with
      | brk => simp at h
      | next =>
        obtain ⟨i1, i2⟩ := ih _ h
        constructor
        · intro h0
          have := hd.1 h0
          rw [i1 (by rw [this]; exact h0), this]
        · intro h0
          have := hd.2 h0
          rw [i2 (by rw [this]; exact h0), this]

/-- What `pipe_to_logs` returns is the `exit_code` with which the loop was left. -/
theorem pipe_to_logs_code (es : List IterEnv) (fo fe : DeinitEnv) (g : Globals) (w : World)
    (r : Int × Globals × World) (h : pipe_to_logs es fo fe g w = some r) :
    ∃ c s', pipe_to_logs_loop es ⟨g, w, EXIT_SUCCESS⟩ = some (c, s') ∧
      r.1 = s'.exit_code := by
  simp only [pipe_to_logs] at h
  cases hl : pipe_to_logs_loop es ⟨g, w, EXIT_SUCCESS⟩ with
  | none => rw [hl] at h; simp at h
  | some cs =>
    obtain ⟨c, s'⟩ := cs
    rw [hl] at h
    simp only [Option.some.injEq] at h
    exact ⟨c, s', rfl, by rw [← h]⟩

/-- The drain of `out` when it is attempted. -/
theorem iter_drain_out_run (e : IterEnv) (rs : Int → Bool) (s : LoopSt)
    (hd : s.g.out.done = 0) (hr : rs s.g.out.pipe0 = true) :
    iter_drain_out e rs s =
      { g := { s.g with out := (read_pipe_into_log s.g.out s.w e.drain_out).2.1 },
        w := (read_pipe_into_log s.g.out s.w e.drain_out).2.2,
        exit_code := if (read_pipe_into_log s.g.out s.w e.drain_out).1 = 0 then EXIT_FAILURE
          else s.exit_code } := by
  simp only [iter_drain_out]
  rw [if_pos ⟨hd, hr⟩]

/-- The drain of `err` when it is attempted. -/
theorem iter_drain_err_run (e : IterEnv) (rs : Int → Bool) (s : LoopSt)
    (hd : s.g.err.done = 0) (hr : rs s.g.err.pipe0 = true) :
    iter_drain_err e rs s =
      { g := { s.g with err := (read_pipe_into_log s.g.err s.w e.drain_err).2.1 },
        w := (read_pipe_into_log s.g.err s.w e.drain_err).2.2,
        exit_code := if (read_pipe_into_log s.g.err s.w e.drain_err).1 = 0 then EXIT_FAILURE
          else s.exit_code } := by
  simp only [iter_drain_err]
  rw [if_pos ⟨hd, hr⟩]

/-- The set `select` leaves behind contains the read end of a target that is not done and
that the environment reports ready. -/
theorem select_result_out (e : IterEnv) (g : Globals) (hd : g.out.done = 0)
    (hr : e.readfds g.out.pipe0 = true) : select_result e g g.out.pipe0 = true := by
  simp only [select_result, select_set, hd, hr]
  split_ifs <;> simp

/-- The set `select` leaves behind contains the read end of a target that is not done and
that the environment reports ready. -/
theorem select_result_err (e : IterEnv) (g : Globals) (hd : g.err.done = 0)
    (hr : e.readfds g.err.pipe0 = true) : select_result e g g.err.pipe0 = true := by
  simp only [select_result, select_set, hd, hr]
  simp

/-- An iteration in which the drain of `out` is attempted and fails. -/
theorem loop_body_out_fails (e : IterEnv) (s : LoopSt) (h1 : e.select_rv ≠ -1)
    (h0 : e.select_rv ≠ 0) (ha : out_attempted e s) (hf : drain_fails e.drain_out) :
    (loop_body e s).2.g.out.done = 1 ∧ (loop_body e s).2.exit_code = EXIT_FAILURE := by
  rw [loop_body_drain e s h1 h0]
  have hrun := iter_drain_out_run e (select_result e (before_select e s).g)
    (iter_select e (before_select e s)) ha.1 (select_result_out e _ ha.1 ha.2)
  obtain ⟨f1, f2⟩ := read_pipe_into_log_fails (iter_select e (before_select e s)).g.out
    (iter_select e (before_select e s)).w e.drain_out hf
  constructor
  · rw [iter_drain_err_out, hrun]
    exact f2
  · apply iter_drain_err_sticky
    rw [hrun]
    simp only [f1, if_true]

/-- An iteration in which the drain of `err` is attempted and fails. -/
theorem loop_body_err_fails (e : IterEnv) (s : LoopSt) (h1 : e.select_rv ≠ -1)
    (h0 : e.select_rv ≠ 0) (ha : err_attempted e s) (hf : drain_fails e.drain_err) :
    (loop_body e s).2.g.err.done = 1 ∧ (loop_body e s).2.exit_code = EXIT_FAILURE := by
  rw [loop_body_drain e s h1 h0]
  have he : (iter_drain_out e (select_result e (before_select e s).g)
      (iter_select e (before_select e s))).g.err = (before_select e s).g.err := by
    rw [iter_drain_out_err]; rfl
  have hrun := iter_drain_err_run e (select_result e (before_select e s).g)
    (iter_drain_out e (select_result e (before_select e s).g)
      (iter_select e (before_select e s)))
    (by rw [he]; exact ha.1) (by rw [he]; exact select_result_err e _ ha.1 ha.2)
  obtain ⟨f1, f2⟩ := read_pipe_into_log_fails
    (iter_drain_out e (select_result e (before_select e s).g)
      (iter_select e (before_select e s))).g.err
    (iter_drain_out e (select_result e (before_select e s).g)
      (iter_select e (before_select e s))).w e.drain_err hf
  rw [hrun]
  exact ⟨f2, by simp only [f1, if_true]⟩

/-! ### C5: how the loop is left -/

/-- C5 as stated fails: from the set-up state, with both targets not done, a `select`
returning -1 makes the loop end by `break`; both `done` flags are still 0 in the state in
which the loop is left, and `exit_code` is 1. -/
theorem loop_left_before_done :
    (pipe_to_logs_loop [it_select_fails] s0).map
      (fun r => (r.1, r.2.g.out.done, r.2.g.err.done, r.2.exit_code)) =
    some (LoopCtl.brk, 0, 0, 1) := by
  decide

/-- C5 amended: for every script of results, the loop of `pipe_to_logs` is left either
through its condition, from a state in which both `out.done` and `err.done` are set, or
through the `break` that follows a `select` returning -1 (then `exit_code` is
`EXIT_FAILURE` and the last calls issued are that `select` and `perror`); there is no
other exit. -/
theorem pipe_to_logs_loop_exit (es : List IterEnv) (s : LoopSt) (c : LoopCtl)
    (s' : LoopSt) (h : pipe_to_logs_loop es s = some (c, s')) :
    (c = LoopCtl.next ∧ s'.g.out.done ≠ 0 ∧ s'.g.err.done ≠ 0) ∨
    (c = LoopCtl.brk ∧ s'.exit_code = EXIT_FAILURE ∧
      ∃ tr nfds, s'.w.trace =
        tr ++ [SysCall.c_select nfds (-1), SysCall.c_perror "select"]) :=
  loop_exit_cases es s c s' h

/-- C5 amended, evaluated on a run in which `out` fails, `err` is drained and then reads
end of stream: the loop is left through its condition. -/
theorem pipe_to_logs_loop_exit_witness :
    pipe_to_logs_loop [it_out_fails, it_err_eof] s0 =
      some (LoopCtl.next, (loop_body it_err_eof (loop_body it_out_fails s0).2).2) ∧
    ((LoopCtl.next = LoopCtl.next ∧
      (loop_body it_err_eof (loop_body it_out_fails s0).2).2.g.out.done ≠ 0 ∧
      (loop_body it_err_eof (loop_body it_out_fails s0).2).2.g.err.done ≠ 0) ∨
    (LoopCtl.next = LoopCtl.brk ∧
      (loop_body it_err_eof (loop_body it_out_fails s0).2).2.exit_code = EXIT_FAILURE ∧
      ∃ tr nfds, (loop_body it_err_eof (loop_body it_out_fails s0).2).2.w.trace =
        tr ++ [SysCall.c_select nfds (-1), SysCall.c_perror "select"])) :=
  ⟨rfl, pipe_to_logs_loop_exit [it_out_fails, it_err_eof] s0 LoopCtl.next _ rfl⟩

/-! ### C6: a failing drain and the other target -/

/-- C6 as stated fails: after an iteration in which both read ends are ready, the drain of
`out` fails and `err` is drained, a `select` returning -1 ends the loop although `err` is
not done. -/
theorem loop_stops_with_err_not_done :
    (loop_steps [it_out_fails] s0).map
      (fun s => (s.g.out.done, s.g.err.done, s.w.files 1)) =
      some (1, 0, [101, 114, 10]) ∧
    (pipe_to_logs_loop [it_out_fails, it_select_fails] s0).map
      (fun r => (r.1, r.2.g.err.done, r.2.exit_code)) =
      some (LoopCtl.brk, 0, 1) := by
  decide

/-- C6 amended: draining one target changes no field of the other. In an iteration in
which `select` reports both read ends ready and the drain of `out` fails, `out` becomes
done, `err` is still drained in that iteration, the iteration does not end the loop, and
`exit_code` is `EXIT_FAILURE`. From then on the loop condition holds as long as `err` is
not done, so the loop can be left with `err` not done only through the `break` after a
`select` returning -1; and however the loop is left, `exit_code` is `EXIT_FAILURE` and
that is what `pipe_to_logs` returns. -/
theorem drain_failure_isolated (e : IterEnv) (s : LoopSt)
    (h1 : e.select_rv ≠ -1) (h0 : e.select_rv ≠ 0)
    (hout : out_attempted e s) (herr : err_attempted e s)
    (hfail : drain_fails e.drain_out) :
    (∀ (e1 : IterEnv) (rs : Int → Bool) (s1 : LoopSt),
      (iter_drain_out e1 rs s1).g.err = s1.g.err ∧
      (iter_drain_err e1 rs s1).g.out = s1.g.out) ∧
    (loop_body e s).1 = LoopCtl.next ∧
    (loop_body e s).2.g.out.done = 1 ∧
    (loop_body e s).2.exit_code = EXIT_FAILURE ∧
    (loop_body e s).2.g.err =
      (read_pipe_into_log (before_select e s).g.err
        (iter_drain_out e (select_result e (before_select e s).g)
          (iter_select e (before_select e s))).w e.drain_err).2.1 ∧
    (∀ s1 : LoopSt, s1.g.err.done = 0 → loop_cond s1 = true) ∧
    (∀ (post : List IterEnv) (c : LoopCtl) (s' : LoopSt),
      pipe_to_logs_loop post (loop_body e s).2 = some (c, s') →
      s'.exit_code = EXIT_FAILURE ∧
      (s'.g.err.done = 0 → c = LoopCtl.brk ∧
        ∃ tr nfds, s'.w.trace =
          tr ++ [SysCall.c_select nfds (-1), SysCall.c_perror "select"])) ∧
    (∀ (pre post : List IterEnv) (fo fe : DeinitEnv) (g : Globals) (w : World)
      (r : Int × Globals × World),
      loop_steps pre ⟨g, w, EXIT_SUCCESS⟩ = some s → loop_cond s = true →
      pipe_to_logs (pre ++ e :: post) fo fe g w = some r → r.1 = EXIT_FAILURE) := by
  obtain ⟨f1, f2⟩ := loop_body_out_fails e s h1 h0 hout hfail
  have hn : (loop_body e s).1 = LoopCtl.next := by
    rw [loop_body_drain e s h1 h0]
  have hb : loop_body e s = (LoopCtl.next, (loop_body e s).2) := by
    rw [← hn]
  refine ⟨fun e1 rs s1 => ⟨iter_drain_out_err e1 rs s1, iter_drain_err_out e1 rs s1⟩,
    hn, f1, f2, ?_, ?_, ?_, ?_⟩
  · rw [loop_body_drain e s h1 h0]
    have he : (iter_drain_out e (select_result e (before_select e s).g)
        (iter_select e (before_select e s))).g.err = (before_select e s).g.err := by
      rw [iter_drain_out_err]; rfl
    rw [iter_drain_err_run e _ _ (by rw [he]; exact herr.1)
      (by rw [he]; exact select_result_err e _ herr.1 herr.2)]
    simp only [he]
  · intro s1 hd
    simp [loop_cond, hd]
  · intro post c s' hl
    refine ⟨loop_sticky post _ c s' hl f2, ?_⟩
    intro hd
    rcases loop_exit_cases post _ c s' hl with ⟨_, _, h3⟩ | ⟨h2, _, h4⟩
    · exact absurd hd h3
    · exact ⟨h2, h4⟩
  · intro pre post fo fe g w r hpre hcond hret
    obtain ⟨c, s', hl, hr⟩ := pipe_to_logs_code _ fo fe g w r hret
    rw [loop_append pre (e :: post) _ s hpre] at hl
    simp only [pipe_to_logs_loop] at hl
    rw [if_pos hcond, hb] at hl
    rw [hr]
    exact loop_sticky post _ c s' hl f2

/-- C6 amended, evaluated on the first iteration of a run in which the `read` on `out`
fails while `err` has three bytes to drain. -/
theorem drain_failure_isolated_witness :
    (loop_body it_out_fails s0).1 = LoopCtl.next ∧
    (loop_body it_out_fails s0).2.g.out.done = 1 ∧
    (loop_body it_out_fails s0).2.exit_code = EXIT_FAILURE ∧
    (loop_body it_out_fails s0).2.g.err = err0 ∧
    (loop_body it_out_fails s0).2.w.files 1 = [101, 114, 10] ∧
    ∀ r, pipe_to_logs ([] ++ it_out_fails :: [it_err_eof]) deinit_ok deinit_ok g0 w0 =
      some r → r.1 = EXIT_FAILURE :=
  have h := drain_failure_isolated it_out_fails s0 (by decide) (by decide)
    ⟨by decide, by decide⟩ ⟨by decide, by decide⟩ (Or.inl (by decide))
  ⟨h.2.1, h.2.2.1, h.2.2.2.1, by decide, by decide,
    fun r hr => h.2.2.2.2.2.2.2 [] [it_err_eof] deinit_ok deinit_ok g0 w0 r rfl
      (by decide) hr⟩

/-! ### C7: failures inside the loop -/

/-- C7 as stated fails: the signal arrives, the reopen of `out` fails at `open`, and
`out` is not marked done by that (it is still drained: its `read` is issued); both
streams then reach end of stream and `pipe_to_logs` returns 0. -/
theorem reopen_failure_not_recorded :
    (before_select it_reopen_fails s0).g.out.done = 0 ∧
    (before_select it_reopen_fails s0).g.out.path_fd = 0 ∧
    (pipe_to_logs [it_reopen_fails] deinit_ok deinit_ok g0 w0).map
      (fun r => (r.1, r.2.2.trace)) =
    some (0,
      [SysCall.c_close 3 0, SysCall.c_open "out.log" (-1),
       SysCall.c_perror "open(log->path)", SysCall.c_close 6 0,
       SysCall.c_open "err.log" 6, SysCall.c_select 8 2, SysCall.c_read 4 4096 0,
       SysCall.c_close 4 0, SysCall.c_read 7 4096 0, SysCall.c_close 6 0,
       SysCall.c_close 7 0]) := by
  decide

/-- C7 amended: if, in some iteration of a run of `pipe_to_logs`, a drain is attempted on
a target and its `read` or `write` fails, then that target has done = 1 at the end of
the iteration, `exit_code` is `EXIT_FAILURE` in every later state of the loop, and if
`pipe_to_logs` returns, it returns `EXIT_FAILURE`, which is not 0. (Nothing is claimed
for a failed reopen.) -/
theorem io_failure_recorded (pre post : List IterEnv) (e : IterEnv) (fo fe : DeinitEnv)
    (g : Globals) (w : World) (s : LoopSt)
    (hpre : loop_steps pre ⟨g, w, EXIT_SUCCESS⟩ = some s) (hcond : loop_cond s = true)
    (h1 : e.select_rv ≠ -1) (h0 : e.select_rv ≠ 0)
    (hfail : (out_attempted e s ∧ drain_fails e.drain_out) ∨
      (err_attempted e s ∧ drain_fails e.drain_err)) :
    (out_attempted e s ∧ drain_fails e.drain_out → (loop_body e s).2.g.out.done = 1) ∧
    (err_attempted e s ∧ drain_fails e.drain_err → (loop_body e s).2.g.err.done = 1) ∧
    (∀ (later : List IterEnv) (s' : LoopSt),
      loop_steps later (loop_body e s).2 = some s' → s'.exit_code = EXIT_FAILURE) ∧
    (∀ r, pipe_to_logs (pre ++ e :: post) fo fe g w = some r →
      r.1 = EXIT_FAILURE ∧ r.1 ≠ 0) := by
  have hx : (loop_body e s).2.exit_code = EXIT_FAILURE := by
    rcases hfail with ⟨ha, hf⟩ | ⟨ha, hf⟩
    · exact (loop_body_out_fails e s h1 h0 ha hf).2
    · exact (loop_body_err_fails e s h1 h0 ha hf).2
  have hn : (loop_body e s).1 = LoopCtl.next := by
    rw [loop_body_drain e s h1 h0]
  have hb : loop_body e s = (LoopCtl.next, (loop_body e s).2) := by
    rw [← hn]
  refine ⟨fun h => (loop_body_out_fails e s h1 h0 h.1 h.2).1,
    fun h => (loop_body_err_fails e s h1 h0 h.1 h.2).1,
    fun later s' hl => loop_steps_sticky later _ s' hl hx, ?_⟩
  intro r hret
  obtain ⟨c, s', hl, hr⟩ := pipe_to_logs_code _ fo fe g w r hret
  rw [loop_append pre (e :: post) _ s hpre] at hl
  simp only [pipe_to_logs_loop] at hl
  rw [if_pos hcond, hb] at hl
  have := loop_sticky post _ c s' hl hx
  rw [hr, this]
  exact ⟨rfl, by decide⟩

/-- C7 amended, evaluated on a run that returns: the `read` on `out` fails in the first
iteration, `err` reaches end of stream in the second. -/
theorem io_failure_recorded_witness :
    (loop_body it_out_fails s0).2.g.out.done = 1 ∧
    (pipe_to_logs ([] ++ it_out_fails :: [it_err_eof]) deinit_ok deinit_ok g0 w0).isSome ∧
    ∀ r, pipe_to_logs ([] ++ it_out_fails :: [it_err_eof]) deinit_ok deinit_ok g0 w0 =
      some r → r.1 = EXIT_FAILURE ∧ r.1 ≠ 0 :=
  have h := io_failure_recorded [] [it_err_eof] it_out_fails deinit_ok deinit_ok g0 w0 s0
    rfl (by decide) (by decide) (by decide)
    (Or.inl ⟨⟨by decide, by decide⟩, Or.inl (by decide)⟩)
  ⟨h.1 ⟨⟨by decide, by decide⟩, Or.inl (by decide)⟩, by decide, h.2.2.2⟩

/-! ### C4: a done target and rotation -/

/-- The rotation check when a rotation is pending. -/
theorem iter_hup_pending (e : IterEnv) (s : LoopSt) (h : s.g.hupped ≠ 0) :
    iter_hup e s =
      { s with
        g := { s.g with
          out := (init_log s.g.out s.w e.init_out).2.1,
          err := (init_log s.g.err (init_log s.g.out s.w e.init_out).2.2 e.init_err).2.1,
          hupped := 0 },
        w := (init_log s.g.err (init_log s.g.out s.w e.init_out).2.2 e.init_err).2.2 } := by
  simp only [iter_hup]
  rw [if_pos h]

/-- The rotation check when no rotation is pending. -/
theorem iter_hup_idle (e : IterEnv) (s : LoopSt) (h : s.g.hupped = 0) :
    iter_hup e s = s := by
  simp only [iter_hup]
  rw [if_neg (fun hn => hn h)]

/-- A target `out` that is done is touched by an iteration only through the rotation
check. -/
theorem loop_body_out_done (e : IterEnv) (s : LoopSt) (hd : s.g.out.done ≠ 0) :
    (loop_body e s).2.g.out = (before_select e s).g.out := by
  by_cases h1 : e.select_rv = -1
  · rw [loop_body_brk e s h1]; rfl
  · by_cases h0 : e.select_rv = 0
    · rw [loop_body_zero e s h0]; rfl
    · rw [loop_body_drain e s h1 h0, iter_drain_err_out, iter_drain_out_skip]
      · rfl
      · show (before_select e s).g.out.done ≠ 0
        rw [(before_select_done e s).1]; exact hd

/-- A target `err` that is done is touched by an iteration only through the rotation
check. -/
theorem loop_body_err_done (e : IterEnv) (s : LoopSt) (hd : s.g.err.done ≠ 0) :
    (loop_body e s).2.g.err = (before_select e s).g.err := by
  by_cases h1 : e.select_rv = -1
  · rw [loop_body_brk e s h1]; rfl
  · by_cases h0 : e.select_rv = 0
    · rw [loop_body_zero e s h0]; rfl
    · rw [loop_body_drain e s h1 h0, iter_drain_err_skip]
      · rw [iter_drain_out_err]; rfl
      · rw [iter_drain_out_err]
        show (before_select e s).g.err.done ≠ 0
        rw [(before_select_done e s).2.1]; exact hd

/-- The state in which `select` is called when no rotation is pending. -/
theorem before_select_idle (e : IterEnv) (s : LoopSt)
    (hp : (iter_env e s).g.hupped = 0) :
    (before_select e s).g.out = s.g.out ∧ (before_select e s).g.err = s.g.err := by
  unfold before_select
  rw [iter_hup_idle e _ hp]
  exact ⟨(iter_env_frame e s).1, (iter_env_frame e s).2.1⟩

/-- The calls `init_log` adds to the trace. -/
theorem init_log_trace (log : stdlog_t) (w : World) (e : InitEnv) :
    (init_log log w e).2.2.trace = w.trace ++ init_log_calls log e := by
  unfold init_log_calls
  by_cases hc : log.path_fd ≠ 0 ∧ e.close_r ≠ 0
  · rw [init_log_close_fail log w e hc.1 hc.2, if_pos hc]
    simp [perror, World.emit, sys_close]
  · rw [if_neg hc]
    have hac : (after_close log w e).trace =
        w.trace ++ (if log.path_fd ≠ 0 then [SysCall.c_close log.path_fd e.close_r]
          else []) := by
      unfold after_close
      by_cases hp : log.path_fd ≠ 0
      · rw [if_pos hp, if_pos hp]; rfl
      · rw [if_neg hp, if_neg hp]; simp
    by_cases ho : e.open_r = -1
    · rw [init_log_open_fail log w e hc ho, if_pos ho]
      show (sys_open _ _ _ _).trace ++ _ = _
      show ((after_close log w e).trace ++ _) ++ _ = _
      rw [hac]
      simp
    · rw [if_neg ho]
      by_cases hp : log.pipe0 = 0 ∧ log.pipe1 = 0
      · rw [init_log_pipe log w e hc ho hp, if_pos hp]
        by_cases hpr : e.pipe_r = -1
        · rw [if_pos hpr, if_pos hpr]
          show (((after_close log w e).trace ++ _) ++ _) ++ _ = _
          rw [hac]
          simp
        · rw [if_neg hpr, if_neg hpr]
          show ((after_close log w e).trace ++ _) ++ _ = _
          rw [hac]
          simp
      · rw [init_log_reopen log w e hc ho hp, if_neg hp]
        show (after_close log w e).trace ++ _ = _
        rw [hac]
        simp

/-- The state in which `select` is called when a rotation is pending: `init_log` has run
on `out`, then on `err`, and the trace has the calls of both. -/
theorem before_select_pending (e : IterEnv) (s : LoopSt)
    (hp : (iter_env e s).g.hupped ≠ 0) :
    (before_select e s).g.out = (init_log s.g.out (iter_env e s).w e.init_out).2.1 ∧
    (before_select e s).g.err =
      (init_log s.g.err (init_log s.g.out (iter_env e s).w e.init_out).2.2
        e.init_err).2.1 ∧
    (before_select e s).w.trace =
      (iter_env e s).w.trace ++ init_log_calls s.g.out e.init_out ++
        init_log_calls s.g.err e.init_err := by
  unfold before_select
  rw [iter_hup_pending e _ hp, (iter_env_frame e s).1, (iter_env_frame e s).2.1]
  refine ⟨rfl, rfl, ?_⟩
  show (init_log _ _ _).2.2.trace = _
  rw [init_log_trace, init_log_trace]

/-- In an iteration in which `out` is done and `select` returns neither -1 nor 0, the only
drain is that of `err`. -/
theorem loop_body_only_err (e : IterEnv) (s : LoopSt) (hd : s.g.out.done ≠ 0)
    (h1 : e.select_rv ≠ -1) (h0 : e.select_rv ≠ 0) :
    (loop_body e s).2 =
      iter_drain_err e (select_result e (before_select e s).g)
        (iter_select e (before_select e s)) := by
  rw [loop_body_drain e s h1 h0, iter_drain_out_skip]
  show (before_select e s).g.out.done ≠ 0
  rw [(before_select_done e s).1]; exact hd

/-- In an iteration in which `err` is done and `select` returns neither -1 nor 0, the only
drain is that of `out`. -/
theorem loop_body_only_out (e : IterEnv) (s : LoopSt) (hd : s.g.err.done ≠ 0)
    (h1 : e.select_rv ≠ -1) (h0 : e.select_rv ≠ 0) :
    (loop_body e s).2 =
      iter_drain_out e (select_result e (before_select e s).g)
        (iter_select e (before_select e s)) := by
  rw [loop_body_drain e s h1 h0, iter_drain_err_skip]
  rw [iter_drain_out_err]
  show (before_select e s).g.err.done ≠ 0
  rw [(before_select_done e s).2.1]; exact hd

/-- A read end that the environment does not report ready is not in the set `select`
leaves behind. -/
theorem select_result_readfds (e : IterEnv) (g : Globals) (fd : Int)
    (h : select_result e g fd = true) : e.readfds fd = true := by
  simp only [select_result, Bool.and_eq_true] at h
  exact h.2

/-- C4 as stated fails: `out` reads end of stream and is done with path_fd = 0; the
signal then arrives while `err` is not done, and the next iteration reopens `out` too:
`open("out.log")` is issued and path_fd becomes 3, with done still 1, while `err` is
reopened and drained. -/
theorem done_target_reopened :
    (loop_steps [it_out_eof] s0).map (fun s => (s.g.out, s.g.err.done)) =
      some (⟨"out.log", 0, 0, 5, 1⟩, 0) ∧
    (loop_steps [it_out_eof, it_rotate] s0).map
      (fun s => (s.g.out, s.g.err.done, s.w.trace)) =
      some (⟨"out.log", 3, 0, 5, 1⟩, 0,
        [SysCall.c_select 8 1, SysCall.c_read 4 4096 0, SysCall.c_close 3 0,
         SysCall.c_close 4 0, SysCall.c_open "out.log" 3, SysCall.c_close 6 0,
         SysCall.c_open "err.log" 6, SysCall.c_select 8 1, SysCall.c_read 7 4096 3,
         SysCall.c_write 6 [101, 114, 10] 3 3]) := by
  decide

/-- C4 amended. (1) A `done` flag that is set is never cleared while the loop runs.
(2) The rotation check does not look at `done`: when a rotation is pending, `init_log`
runs on `out` and then on `err`, and the calls issued are those of the two `init_log`.
(3) What `init_log` does on any target, done or not: `done` is kept; with path_fd = 0
its first call is `open` on the target's path, and when `open` succeeds path_fd becomes
the new descriptor; with path_fd != 0 it first closes that descriptor, and when the
`close` fails it issues nothing but `perror` and leaves the target unchanged, otherwise
it goes on to `open`. (4) A target that is done is never drained: an iteration changes
its fields only through the rotation check, and when `select` returns neither -1 nor 0
the state after the iteration is the one left by the drain of the sibling alone, if the
sibling is not done and reported ready, and the state right after `select` otherwise (no
`read`, no `write`). -/
theorem done_target_rotation (e : IterEnv) (s : LoopSt) :
    (∀ (es : List IterEnv) (s' : LoopSt), loop_steps es s = some s' →
      (s.g.out.done ≠ 0 → s'.g.out.done = s.g.out.done) ∧
      (s.g.err.done ≠ 0 → s'.g.err.done = s.g.err.done)) ∧
    ((iter_env e s).g.hupped ≠ 0 →
      (before_select e s).g.out = (init_log s.g.out (iter_env e s).w e.init_out).2.1 ∧
      (before_select e s).g.err =
        (init_log s.g.err (init_log s.g.out (iter_env e s).w e.init_out).2.2
          e.init_err).2.1 ∧
      (before_select e s).w.trace =
        (iter_env e s).w.trace ++ init_log_calls s.g.out e.init_out ++
          init_log_calls s.g.err e.init_err) ∧
    (∀ (log : stdlog_t) (w : World) (ie : InitEnv),
      (init_log log w ie).2.1.done = log.done ∧
      (log.path_fd = 0 →
        init_log_calls log ie =
          SysCall.c_open log.path ie.open_r ::
            (if ie.open_r = -1 then [SysCall.c_perror "open(log->path)"]
            else if log.pipe0 = 0 ∧ log.pipe1 = 0 then
              SysCall.c_pipe ie.pipe_r ::
                (if ie.pipe_r = -1 then [SysCall.c_perror "pipe(log->pipe)"] else [])
            else [])) ∧
      (log.path_fd = 0 → ie.open_r ≠ -1 → (init_log log w ie).2.1.path_fd = ie.open_r) ∧
      (log.path_fd ≠ 0 → ie.close_r ≠ 0 →
        init_log_calls log ie =
          [SysCall.c_close log.path_fd ie.close_r,
            SysCall.c_perror "close(log->path_fd)"] ∧
        (init_log log w ie).2.1 = log) ∧
      (log.path_fd ≠ 0 → ie.close_r = 0 → ie.open_r ≠ -1 →
        (init_log log w ie).2.1.path_fd = ie.open_r ∧
        ∃ tail, init_log_calls log ie =
          SysCall.c_close log.path_fd 0 :: SysCall.c_open log.path ie.open_r :: tail)) ∧
    (s.g.out.done ≠ 0 →
      (loop_body e s).2.g.out = (before_select e s).g.out ∧
      ((iter_env e s).g.hupped = 0 → (loop_body e s).2.g.out = s.g.out) ∧
      (e.select_rv ≠ -1 → e.select_rv ≠ 0 → err_attempted e s →
        (loop_body e s).2.g.err =
          (read_pipe_into_log (before_select e s).g.err
            (iter_select e (before_select e s)).w e.drain_err).2.1 ∧
        (loop_body e s).2.w =
          (read_pipe_into_log (before_select e s).g.err
            (iter_select e (before_select e s)).w e.drain_err).2.2) ∧
      (e.select_rv ≠ -1 → e.select_rv ≠ 0 → ¬ err_attempted e s →
        (loop_body e s).2 = iter_select e (before_select e s))) ∧
    (s.g.err.done ≠ 0 →
      (loop_body e s).2.g.err = (before_select e s).g.err ∧
      ((iter_env e s).g.hupped = 0 → (loop_body e s).2.g.err = s.g.err) ∧
      (e.select_rv ≠ -1 → e.select_rv ≠ 0 → out_attempted e s →
        (loop_body e s).2.g.out =
          (read_pipe_into_log (before_select e s).g.out
            (iter_select e (before_select e s)).w e.drain_out).2.1 ∧
        (loop_body e s).2.w =
          (read_pipe_into_log (before_select e s).g.out
            (iter_select e (before_select e s)).w e.drain_out).2.2) ∧
      (e.select_rv ≠ -1 → e.select_rv ≠ 0 → ¬ out_attempted e s →
        (loop_body e s).2 = iter_select e (before_select e s))) := by
  refine ⟨fun es s' h => loop_steps_done es s s' h,
    fun hp => before_select_pending e s hp, ?_, ?_, ?_⟩
  · intro log w ie
    refine ⟨(init_log_done log w ie).1, ?_, ?_, ?_, ?_⟩
    · intro hfd
      have hc : ¬ (log.path_fd ≠ 0 ∧ ie.close_r ≠ 0) := fun h => h.1 hfd
      have hn : ¬ (log.path_fd ≠ 0) := fun h => h hfd
      unfold init_log_calls
      rw [if_neg hc, if_neg hn]
      rfl
    · intro hfd ho
      have hc : ¬ (log.path_fd ≠ 0 ∧ ie.close_r ≠ 0) := fun h => h.1 hfd
      by_cases hp : log.pipe0 = 0 ∧ log.pipe1 = 0
      · rw [init_log_pipe log w ie hc ho hp]
        split_ifs <;> rfl
      · rw [init_log_reopen log w ie hc ho hp]
    · intro hfd hcl
      constructor
      · unfold init_log_calls
        rw [if_pos ⟨hfd, hcl⟩]
      · rw [init_log_close_fail log w ie hfd hcl]
    · intro hfd hcl ho
      have hc : ¬ (log.path_fd ≠ 0 ∧ ie.close_r ≠ 0) := fun h => h.2 hcl
      constructor
      · by_cases hp : log.pipe0 = 0 ∧ log.pipe1 = 0
        · rw [init_log_pipe log w ie hc ho hp]
          split_ifs <;> rfl
        · rw [init_log_reopen log w ie hc ho hp]
      · unfold init_log_calls
        rw [if_neg hc, if_pos hfd, hcl]
        exact ⟨_, rfl⟩
  · intro hd
    have hb := loop_body_out_done e s hd
    refine ⟨hb, ?_, ?_, ?_⟩
    · intro hp
      rw [hb, (before_select_idle e s hp).1]
    · intro h1 h0 ha
      rw [loop_body_only_err e s hd h1 h0]
      rw [iter_drain_err_run e (select_result e (before_select e s).g)
        (iter_select e (before_select e s)) ha.1
        (select_result_err e (before_select e s).g ha.1 ha.2)]
      exact ⟨rfl, rfl⟩
    · intro h1 h0 ha
      rw [loop_body_only_err e s hd h1 h0]
      simp only [iter_drain_err]
      rw [if_neg]
      intro hc
      exact ha ⟨hc.1, select_result_readfds e _ _ hc.2⟩
  · intro hd
    have hb := loop_body_err_done e s hd
    refine ⟨hb, ?_, ?_, ?_⟩
    · intro hp
      rw [hb, (before_select_idle e s hp).2]
    · intro h1 h0 ha
      rw [loop_body_only_out e s hd h1 h0]
      rw [iter_drain_out_run e (select_result e (before_select e s).g)
        (iter_select e (before_select e s)) ha.1
        (select_result_out e (before_select e s).g ha.1 ha.2)]
      exact ⟨rfl, rfl⟩
    · intro h1 h0 ha
      rw [loop_body_only_out e s hd h1 h0]
      simp only [iter_drain_out]
      rw [if_neg]
      intro hc
      exact ha ⟨hc.1, select_result_readfds e _ _ hc.2⟩

/-- C4 amended, evaluated on the iteration that services a rotation after `out` is done:
the check issues `open` on `out.log`, then `close` and `open` for `err`; `out` stays done
with path_fd = 3; `err` is drained, its three bytes reaching the reopened file 3. A
further rotation whose `close` of descriptor 3 fails issues no `open` on `out.log`. -/
theorem done_target_rotation_witness :
    (before_select it_rotate s_out_done).w.trace =
      s_out_done.w.trace ++
        [SysCall.c_open "out.log" 3, SysCall.c_close 6 0, SysCall.c_open "err.log" 6] ∧
    (loop_body it_rotate s_out_done).2.g.out = ⟨"out.log", 3, 0, 5, 1⟩ ∧
    (loop_body it_rotate s_out_done).2.w.files 3 = [101, 114, 10] ∧
    (loop_body it_rotate s_out_done).2.w.trace =
      (before_select it_rotate s_out_done).w.trace ++
        [SysCall.c_select 8 1, SysCall.c_read 7 4096 3,
          SysCall.c_write 6 [101, 114, 10] 3 3] ∧
    init_log_calls (loop_body it_rotate s_out_done).2.g.out
      it_rotate_close_fails.init_out =
      [SysCall.c_close 3 (-1), SysCall.c_perror "close(log->path_fd)"] :=
  have h := done_target_rotation it_rotate s_out_done
  have hrot := h.2.1 (by decide)
  have hdone := h.2.2.2.1 (by decide)
  have hdrain := hdone.2.2.1 (by decide) (by decide) ⟨by decide, by decide⟩
  have hinit := h.2.2.1 (loop_body it_rotate s_out_done).2.g.out
    (loop_body it_rotate s_out_done).2.w it_rotate_close_fails.init_out
  ⟨hrot.2.2.trans (by decide), (hdone.1.trans hrot.1).trans (by decide),
    (congrArg (fun w => w.files 3) hdrain.2).trans (by decide),
    (congrArg World.trace hdrain.2).trans (by decide),
    ((hinit.2.2.2.1 (by decide) (by decide)).1).trans (by decide)⟩

/-! ### C1: every byte reaches its log -/

/-- What `read` changes: the queue of the pipe behind `fd`, and the trace. -/
theorem sys_read_frame (w : World) (fd : Int) (count : Nat) (r : Int) (id : Nat)
    (h : w.fds fd = some (FdObj.pipe_r id)) :
    (sys_read w fd count r).2.fds = w.fds ∧
    (sys_read w fd count r).2.files = w.files ∧
    (∀ id', id' ≠ id → (sys_read w fd count r).2.pipes id' = w.pipes id') := by
  simp only [sys_read, h]
  split_ifs
  · refine ⟨rfl, rfl, ?_⟩
    intro id' hne
    simp [Function.update_noteq hne]
  · exact ⟨rfl, rfl, fun _ _ => rfl⟩

/-- What `write` changes: the file behind `fd`, and the trace. -/
theorem sys_write_frame (w : World) (fd : Int) (buf : List Byte) (n r : Int) (ino : Nat)
    (h : w.fds fd = some (FdObj.file ino)) :
    (sys_write w fd buf n r).fds = w.fds ∧
    (sys_write w fd buf n r).pipes = w.pipes ∧
    (∀ ino', ino' ≠ ino → (sys_write w fd buf n r).files ino' = w.files ino') := by
  simp only [sys_write, h]
  split_ifs
  · refine ⟨rfl, rfl, ?_⟩
    intro ino' hne
    simp [Function.update_noteq hne]
  · exact ⟨rfl, rfl, fun _ _ => rfl⟩

/-- What `deinit_log` changes in the world: the two descriptors of the target, and the
trace. -/
theorem deinit_log_frame (log : stdlog_t) (w : World) (e : DeinitEnv) :
    (deinit_log log w e).2.pipes = w.pipes ∧
    (deinit_log log w e).2.files = w.files ∧
    (∀ fd, fd ≠ log.path_fd → fd ≠ log.pipe0 → (deinit_log log w e).2.fds fd = w.fds fd) := by
  simp only [deinit_log]
  by_cases h1 : log.path_fd ≠ 0 <;> by_cases h2 : log.pipe0 ≠ 0
  · rw [if_pos h1]; simp only []; rw [if_pos h2]
    refine ⟨rfl, rfl, ?_⟩
    intro fd n1 n2
    simp only [sys_close]
    split_ifs <;> simp [Function.update_noteq n1, Function.update_noteq n2]
  · rw [if_pos h1]; simp only []; rw [if_neg h2]
    refine ⟨rfl, rfl, ?_⟩
    intro fd n1 n2
    simp only [sys_close]
    split_ifs <;> simp [Function.update_noteq n1]
  · rw [if_neg h1]; simp only []; rw [if_pos h2]
    refine ⟨rfl, rfl, ?_⟩
    intro fd n1 n2
    simp only [sys_close]
    split_ifs <;> simp [Function.update_noteq n2]
  · rw [if_neg h1]; simp only []; rw [if_neg h2]
    exact ⟨rfl, rfl, fun _ _ _ => rfl⟩

/-- The drain when `read` returns -1. -/
theorem read_pipe_into_log_err (log : stdlog_t) (w : World) (d : DrainEnv)
    (h : d.read_r = -1) :
    read_pipe_into_log log w d =
      (0, (deinit_log log (perror (sys_read w log.pipe0 PIPE_BUF d.read_r).2
          "read(log->pipe[0])") d.deinit).1,
        (deinit_log log (perror (sys_read w log.pipe0 PIPE_BUF d.read_r).2
          "read(log->pipe[0])") d.deinit).2) := by
  simp only [read_pipe_into_log]
  rw [if_pos h.symm]

/-- The drain when `read` returns 0. -/
theorem read_pipe_into_log_eof (log : stdlog_t) (w : World) (d : DrainEnv)
    (h : d.read_r = 0) :
    read_pipe_into_log log w d =
      (1, (deinit_log log (sys_read w log.pipe0 PIPE_BUF d.read_r).2 d.deinit).1,
        (deinit_log log (sys_read w log.pipe0 PIPE_BUF d.read_r).2 d.deinit).2) := by
  have h1 : ¬ (-1 = d.read_r) := by omega
  simp only [read_pipe_into_log]
  rw [if_neg h1, if_pos h.symm]

/-- The drain when `read` returns bytes and `write` does not return their number. -/
theorem read_pipe_into_log_short (log : stdlog_t) (w : World) (d : DrainEnv)
    (h1 : d.read_r ≠ -1) (h0 : d.read_r ≠ 0) (hw : d.write_r ≠ d.read_r) :
    read_pipe_into_log log w d =
      (0, (deinit_log log (perror (sys_write (sys_read w log.pipe0 PIPE_BUF d.read_r).2
          log.path_fd (sys_read w log.pipe0 PIPE_BUF d.read_r).1 d.read_r d.write_r)
          "write(log->path_fd)") d.deinit).1,
        (deinit_log log (perror (sys_write (sys_read w log.pipe0 PIPE_BUF d.read_r).2
          log.path_fd (sys_read w log.pipe0 PIPE_BUF d.read_r).1 d.read_r d.write_r)
          "write(log->path_fd)") d.deinit).2) := by
  have h1' : ¬ (-1 = d.read_r) := fun h => h1 h.symm
  have h0' : ¬ (0 = d.read_r) := fun h => h0 h.symm
  have hw' : d.read_r ≠ d.write_r := fun h => hw h.symm
  simp only [read_pipe_into_log]
  rw [if_neg h1', if_neg h0', if_pos hw']

/-- The drain when `read` returns bytes and `write` returns their number. -/
theorem read_pipe_into_log_full (log : stdlog_t) (w : World) (d : DrainEnv)
    (h1 : d.read_r ≠ -1) (h0 : d.read_r ≠ 0) (hw : d.write_r = d.read_r) :
    read_pipe_into_log log w d =
      (1, log, sys_write (sys_read w log.pipe0 PIPE_BUF d.read_r).2 log.path_fd
        (sys_read w log.pipe0 PIPE_BUF d.read_r).1 d.read_r d.write_r) := by
  have h1' : ¬ (-1 = d.read_r) := fun h => h1 h.symm
  have h0' : ¬ (0 = d.read_r) := fun h => h0 h.symm
  have hw' : ¬ (d.read_r ≠ d.write_r) := fun h => h hw.symm
  simp only [read_pipe_into_log]
  rw [if_neg h1', if_neg h0', if_neg hw']

/-- What a drain changes in the world, whatever its calls return: the queue of the
target's pipe, the target's file, the target's two descriptors, and the trace. -/
theorem read_pipe_into_log_frame (log : stdlog_t) (w : World) (d : DrainEnv)
    (id ino : Nat) (hp : w.fds log.pipe0 = some (FdObj.pipe_r id))
    (hf : w.fds log.path_fd = some (FdObj.file ino)) :
    (∀ id', id' ≠ id → (read_pipe_into_log log w d).2.2.pipes id' = w.pipes id') ∧
    (∀ ino', ino' ≠ ino → (read_pipe_into_log log w d).2.2.files ino' = w.files ino') ∧
    (∀ fd, fd ≠ log.path_fd → fd ≠ log.pipe0 →
      (read_pipe_into_log log w d).2.2.fds fd = w.fds fd) := by
  obtain ⟨r1, r2, r3⟩ := sys_read_frame w log.pipe0 PIPE_BUF d.read_r id hp
  have hf1 : (sys_read w log.pipe0 PIPE_BUF d.read_r).2.fds log.path_fd =
      some (FdObj.file ino) := by rw [r1]; exact hf
  obtain ⟨w1, w2, w3⟩ := sys_write_frame (sys_read w log.pipe0 PIPE_BUF d.read_r).2
    log.path_fd (sys_read w log.pipe0 PIPE_BUF d.read_r).1 d.read_r d.write_r ino hf1
  by_cases h1 : d.read_r = -1
  · rw [read_pipe_into_log_err log w d h1]
    obtain ⟨d1, d2, d3⟩ := deinit_log_frame log
      (perror (sys_read w log.pipe0 PIPE_BUF d.read_r).2 "read(log->pipe[0])") d.deinit
    refine ⟨fun id' hne => ?_, fun ino' _ => ?_, fun fd n1 n2 => ?_⟩
    · show (deinit_log _ _ _).2.pipes id' = _
      rw [d1]; exact r3 id' hne
    · show (deinit_log _ _ _).2.files ino' = _
      rw [d2]; exact congrFun r2 ino'
    · show (deinit_log _ _ _).2.fds fd = _
      rw [d3 fd n1 n2]; exact congrFun r1 fd
  · by_cases h0 : d.read_r = 0
    · rw [read_pipe_into_log_eof log w d h0]
      obtain ⟨d1, d2, d3⟩ := deinit_log_frame log
        (sys_read w log.pipe0 PIPE_BUF d.read_r).2 d.deinit
      refine ⟨fun id' hne => ?_, fun ino' _ => ?_, fun fd n1 n2 => ?_⟩
      · show (deinit_log _ _ _).2.pipes id' = _
        rw [d1]; exact r3 id' hne
      · show (deinit_log _ _ _).2.files ino' = _
        rw [d2, r2]
      · show (deinit_log _ _ _).2.fds fd = _
        rw [d3 fd n1 n2, r1]
    · by_cases hw : d.write_r = d.read_r
      · rw [read_pipe_into_log_full log w d h1 h0 hw]
        refine ⟨fun id' hne => ?_, fun ino' hne => ?_, fun fd _ _ => ?_⟩
        · show (sys_write _ _ _ _ _).pipes id' = _
          rw [w2]; exact r3 id' hne
        · show (sys_write _ _ _ _ _).files ino' = _
          rw [w3 ino' hne, r2]
        · show (sys_write _ _ _ _ _).fds fd = _
          rw [w1, r1]
      · rw [read_pipe_into_log_short log w d h1 h0 hw]
        obtain ⟨d1, d2, d3⟩ := deinit_log_frame log
          (perror (sys_write (sys_read w log.pipe0 PIPE_BUF d.read_r).2
            log.path_fd (sys_read w log.pipe0 PIPE_BUF d.read_r).1 d.read_r d.write_r)
            "write(log->path_fd)") d.deinit
        refine ⟨fun id' hne => ?_, fun ino' hne => ?_, fun fd n1 n2 => ?_⟩
        · show (deinit_log _ _ _).2.pipes id' = _
          rw [d1]
          show (sys_write _ _ _ _ _).pipes id' = _
          rw [w2]; exact r3 id' hne
        · show (deinit_log _ _ _).2.files ino' = _
          rw [d2]
          show (sys_write _ _ _ _ _).files ino' = _
          rw [w3 ino' hne, r2]
        · show (deinit_log _ _ _).2.fds fd = _
          rw [d3 fd n1 n2]
          show (sys_write _ _ _ _ _).fds fd = _
          rw [w1, r1]

/-- The stream invariant only looks at the target's descriptors, pipe and file. -/
theorem StreamInv.of_agree {log : stdlog_t} {w w' : World} {id ino : Nat}
    {total : List Byte} {rest : List ChildEv} (h : StreamInv log w id ino total rest)
    (hfd : log.done = 0 →
      w'.fds log.pipe0 = w.fds log.pipe0 ∧ w'.fds log.path_fd = w.fds log.path_fd)
    (hfiles : w'.files ino = w.files ino) (hpipes : w'.pipes id = w.pipes id) :
    StreamInv log w' id ino total rest := by
  constructor
  · intro hd
    obtain ⟨a1, a2, a3⟩ := h.1 hd
    obtain ⟨f1, f2⟩ := hfd hd
    rw [f1, f2, hfiles, hpipes]
    exact ⟨a1, a2, a3⟩
  · intro hd
    rw [hfiles]; exact h.2 hd

/-- Draining one target keeps the invariant of the other stream. -/
theorem StreamInv.drain_other {A B : stdlog_t} {w : World} {idA inoA idB inoB : Nat}
    {total : List Byte} {rest : List ChildEv} (d : DrainEnv)
    (h : StreamInv A w idA inoA total rest)
    (hp : w.fds B.pipe0 = some (FdObj.pipe_r idB))
    (hf : w.fds B.path_fd = some (FdObj.file inoB))
    (hid : idA ≠ idB) (hino : inoA ≠ inoB) :
    StreamInv A (read_pipe_into_log B w d).2.2 idA inoA total rest := by
  obtain ⟨f1, f2, f3⟩ := read_pipe_into_log_frame B w d idB inoB hp hf
  refine h.of_agree ?_ (f2 inoA hino) (f1 idA hid)
  intro hd
  obtain ⟨a1, a2, _⟩ := h.1 hd
  have n1 : A.pipe0 ≠ B.path_fd := by
    intro e; rw [e, hf] at a1; cases a1
  have n2 : A.pipe0 ≠ B.pipe0 := by
    intro e; rw [e, hp] at a1
    exact hid (by injection a1 with a1; injection a1 with a1; exact a1.symm)
  have n3 : A.path_fd ≠ B.path_fd := by
    intro e; rw [e, hf] at a2
    exact hino (by injection a2 with a2; injection a2 with a2; exact a2.symm)
  have n4 : A.path_fd ≠ B.pipe0 := by
    intro e; rw [e, hp] at a2; cases a2
  exact ⟨f3 _ n1 n2, f3 _ n3 n4⟩

/-- A `read` returning n > 0 takes the first n queued bytes of the pipe. -/
theorem sys_read_pos (w : World) (fd : Int) (count : Nat) (r : Int) (id : Nat)
    (h : w.fds fd = some (FdObj.pipe_r id)) (hpos : 0 < r) :
    (sys_read w fd count r).1 = (w.pipes id).queue.take r.toNat ∧
    ((sys_read w fd count r).2.pipes id).queue = (w.pipes id).queue.drop r.toNat ∧
    ((sys_read w fd count r).2.pipes id).wclosed = (w.pipes id).wclosed := by
  simp only [sys_read, h]
  rw [if_pos hpos]
  simp

/-- A `write` returning r > 0 appends the first r bytes of the buffer to the file. -/
theorem sys_write_pos (w : World) (fd : Int) (buf : List Byte) (n r : Int) (ino : Nat)
    (h : w.fds fd = some (FdObj.file ino)) (hpos : 0 < r) :
    (sys_write w fd buf n r).files ino = w.files ino ++ buf.take r.toNat := by
  simp only [sys_write, h]
  rw [if_pos hpos]
  simp

/-- The bytes written to a pipe by a sequence of events, event by event. -/
theorem written_cons (id : Nat) (ev : ChildEv) (evs : List ChildEv) :
    written id (ev :: evs) =
      if ev.pipe = id then ev.bytes ++ (if ev.close then [] else written id evs)
      else written id evs := rfl

/-- A drain whose calls succeed keeps the invariant of its own stream and returns 1. -/
theorem StreamInv.drain_own {A : stdlog_t} {w : World} {id ino : Nat}
    {total : List Byte} {rest : List ChildEv} (d : DrainEnv)
    (h : StreamInv A w id ino total rest) (hd : A.done = 0)
    (hok : drain_ok w A.pipe0 d = true) :
    StreamInv (read_pipe_into_log A w d).2.1 (read_pipe_into_log A w d).2.2 id ino
      total rest ∧
    (read_pipe_into_log A w d).1 = 1 := by
  obtain ⟨a1, a2, a3⟩ := h.1 hd
  obtain ⟨r1, r2, r3⟩ := sys_read_frame w A.pipe0 PIPE_BUF d.read_r id a1
  simp only [drain_ok, a1, Bool.or_eq_true, Bool.and_eq_true, decide_eq_true_eq] at hok
  rcases hok with ⟨⟨⟨hpos, _⟩, hlen⟩, hw⟩ | ⟨⟨h0, hq⟩, hc⟩
  · have h1 : d.read_r ≠ -1 := by omega
    have h0 : d.read_r ≠ 0 := by omega
    have hf1 : (sys_read w A.pipe0 PIPE_BUF d.read_r).2.fds A.path_fd =
        some (FdObj.file ino) := by rw [r1]; exact a2
    obtain ⟨w1, w2, w3⟩ := sys_write_frame (sys_read w A.pipe0 PIPE_BUF d.read_r).2
      A.path_fd (sys_read w A.pipe0 PIPE_BUF d.read_r).1 d.read_r d.write_r ino hf1
    obtain ⟨p1, p2, p3⟩ := sys_read_pos w A.pipe0 PIPE_BUF d.read_r id a1 hpos
    have hwpos : 0 < d.write_r := by omega
    have hfile := sys_write_pos (sys_read w A.pipe0 PIPE_BUF d.read_r).2
      A.path_fd (sys_read w A.pipe0 PIPE_BUF d.read_r).1 d.read_r d.write_r ino hf1 hwpos
    rw [read_pipe_into_log_full A w d h1 h0 hw]
    refine ⟨⟨fun _ => ?_, fun hn => absurd hd hn⟩, rfl⟩
    refine ⟨?_, ?_, ?_⟩
    · show (sys_write _ _ _ _ _).fds A.pipe0 = _
      rw [w1, r1]; exact a1
    · show (sys_write _ _ _ _ _).fds A.path_fd = _
      rw [w1, r1]; exact a2
    · show (sys_write _ _ _ _ _).files ino ++ ((sys_write _ _ _ _ _).pipes id).queue ++
        (if ((sys_write _ _ _ _ _).pipes id).wclosed = true then [] else written id rest) =
          total
      rw [hfile, w2, p1, p2, p3, r2, hw, List.take_take, min_self, ← a3]
      simp only [List.append_assoc]
      rw [← List.append_assoc ((w.pipes id).queue.take d.read_r.toNat),
        List.take_append_drop]
  · rw [read_pipe_into_log_eof A w d h0]
    obtain ⟨d1, d2, d3⟩ := deinit_log_frame A
      (sys_read w A.pipe0 PIPE_BUF d.read_r).2 d.deinit
    refine ⟨⟨fun hz => ?_, fun _ => ?_⟩, rfl⟩
    · exfalso
      have : (deinit_log A (sys_read w A.pipe0 PIPE_BUF d.read_r).2 d.deinit).1.done = 1 := by
        rw [deinit_log_fields]
      rw [this] at hz
      exact absurd hz (by decide)
    · show (deinit_log _ _ _).2.files ino = total
      rw [d2, r2, ← a3, hq, hc]
      simp

/-- Writer events keep the invariant of a stream: what was still to be written is now
queued. -/
theorem StreamInv.child {log : stdlog_t} {id ino : Nat} {total : List Byte}
    (evs : List ChildEv) :
    ∀ {w : World} {rest : List ChildEv}, StreamInv log w id ino total (evs ++ rest) →
      StreamInv log (evs.foldl child_ev w) id ino total rest := by
  induction evs with
  | nil => intro w rest h; exact h
  | cons ev evs ih =>
    intro w rest h
    simp only [List.foldl_cons]
    apply ih
    constructor
    · intro hd
      obtain ⟨a1, a2, a3⟩ := h.1 hd
      rw [List.cons_append, written_cons] at a3
      by_cases hc : (w.pipes ev.pipe).wclosed = true
      · have : child_ev w ev = w := by simp [child_ev, hc]
        rw [this]
        refine ⟨a1, a2, ?_⟩
        by_cases he : ev.pipe = id
        · rw [he] at hc
          rw [if_pos hc] at a3 ⊢
          exact a3
        · rw [if_neg he] at a3
          exact a3
      · have hc' : (w.pipes ev.pipe).wclosed = false := by simpa using hc
        have hw : child_ev w ev = { w with pipes := Function.update w.pipes ev.pipe (Pipe.mk ((w.pipes ev.pipe).queue ++ ev.bytes) ev.close) } := by
          simp [child_ev, hc']
        rw [hw]
        refine ⟨a1, a2, ?_⟩
        by_cases he : ev.pipe = id
        · subst he
          rw [if_neg hc, if_pos rfl] at a3
          simp only [Function.update_same]
          rw [← a3]
          cases hcl : ev.close <;> simp
        · have hid : id ≠ ev.pipe := fun e => he e.symm
          rw [if_neg he] at a3
          simp only [Function.update_noteq hid]
          exact a3
    · intro hd
      have hf : (child_ev w ev).files = w.files := by
        simp only [child_ev]; split_ifs <;> rfl
      rw [hf]; exact h.2 hd

/-- The drain step of `out` keeps the loop invariant. -/
theorem LoopInv.drain_out {s : LoopSt} {po io pe ie : Nat} {tout terr : List Byte}
    {rest : List ChildEv} (e : IterEnv) (rs : Int → Bool)
    (h : LoopInv s po io pe ie tout terr rest) (hid : po ≠ pe) (hino : io ≠ ie)
    (hok : s.g.out.done = 0 → rs s.g.out.pipe0 = true →
      drain_ok s.w s.g.out.pipe0 e.drain_out = true) :
    LoopInv (iter_drain_out e rs s) po io pe ie tout terr rest := by
  obtain ⟨i1, i2, i3, i4⟩ := h
  by_cases ha : s.g.out.done = 0 ∧ rs s.g.out.pipe0 = true
  · rw [iter_drain_out_run e rs s ha.1 ha.2]
    obtain ⟨o1, o2⟩ := i2.drain_own e.drain_out ha.1 (hok ha.1 ha.2)
    obtain ⟨a1, a2, _⟩ := i2.1 ha.1
    refine ⟨i1, o1, i3.drain_other e.drain_out a1 a2 (fun h => hid h.symm)
      (fun h => hino h.symm), ?_⟩
    show (if (read_pipe_into_log s.g.out s.w e.drain_out).1 = 0 then EXIT_FAILURE
      else s.exit_code) = EXIT_SUCCESS
    rw [o2, if_neg (by decide)]; exact i4
  · simp only [iter_drain_out]
    rw [if_neg ha]
    exact ⟨i1, i2, i3, i4⟩

/-- The drain step of `err` keeps the loop invariant. -/
theorem LoopInv.drain_err {s : LoopSt} {po io pe ie : Nat} {tout terr : List Byte}
    {rest : List ChildEv} (e : IterEnv) (rs : Int → Bool)
    (h : LoopInv s po io pe ie tout terr rest) (hid : po ≠ pe) (hino : io ≠ ie)
    (hok : s.g.err.done = 0 → rs s.g.err.pipe0 = true →
      drain_ok s.w s.g.err.pipe0 e.drain_err = true) :
    LoopInv (iter_drain_err e rs s) po io pe ie tout terr rest := by
  obtain ⟨i1, i2, i3, i4⟩ := h
  by_cases ha : s.g.err.done = 0 ∧ rs s.g.err.pipe0 = true
  · rw [iter_drain_err_run e rs s ha.1 ha.2]
    obtain ⟨o1, o2⟩ := i3.drain_own e.drain_err ha.1 (hok ha.1 ha.2)
    obtain ⟨a1, a2, _⟩ := i3.1 ha.1
    refine ⟨i1, i2.drain_other e.drain_err a1 a2 hid hino, o1, ?_⟩
    show (if (read_pipe_into_log s.g.err s.w e.drain_err).1 = 0 then EXIT_FAILURE
      else s.exit_code) = EXIT_SUCCESS
    rw [o2, if_neg (by decide)]; exact i4
  · simp only [iter_drain_err]
    rw [if_neg ha]
    exact ⟨i1, i2, i3, i4⟩

/-- What `iter_ok` says. -/
theorem iter_ok_spec (e : IterEnv) (s : LoopSt) (h : iter_ok e s = true) :
    e.signal = false ∧ e.select_rv ≠ -1 ∧
    (e.select_rv = 0 ∨
      (((iter_select e (before_select e s)).g.out.done = 0 →
          select_result e (before_select e s).g
            (iter_select e (before_select e s)).g.out.pipe0 = true →
          drain_ok (iter_select e (before_select e s)).w
            (iter_select e (before_select e s)).g.out.pipe0 e.drain_out = true) ∧
        ((iter_drain_out e (select_result e (before_select e s).g)
            (iter_select e (before_select e s))).g.err.done = 0 →
          select_result e (before_select e s).g
            (iter_drain_out e (select_result e (before_select e s).g)
              (iter_select e (before_select e s))).g.err.pipe0 = true →
          drain_ok (iter_drain_out e (select_result e (before_select e s).g)
              (iter_select e (before_select e s))).w
            (iter_drain_out e (select_result e (before_select e s).g)
              (iter_select e (before_select e s))).g.err.pipe0 e.drain_err = true))) := by
  simp only [iter_ok, Bool.and_eq_true, Bool.or_eq_true, Bool.not_eq_true',
    decide_eq_true_eq, Bool.and_eq_false_imp] at h
  obtain ⟨⟨hs, hrv⟩, hrest⟩ := h
  refine ⟨hs, hrv, ?_⟩
  rcases hrest with h0 | ⟨ho, he⟩
  · exact Or.inl h0
  · right
    constructor
    · intro hd hr
      rcases ho with hn | hok
      · have := hn hd
        rw [hr] at this; cases this
      · exact hok
    · intro hd hr
      rcases he with hn | hok
      · have := hn hd
        rw [hr] at this; cases this
      · exact hok

/-- An iteration whose calls succeed, run without signal, keeps the loop invariant and
does not leave the loop. -/
theorem LoopInv.step {s : LoopSt} {po io pe ie : Nat} {tout terr : List Byte}
    {rest : List ChildEv} (e : IterEnv)
    (h : LoopInv s po io pe ie tout terr (e.child ++ rest)) (hid : po ≠ pe)
    (hino : io ≠ ie) (hok : iter_ok e s = true) :
    (loop_body e s).1 = LoopCtl.next ∧
    LoopInv (loop_body e s).2 po io pe ie tout terr rest := by
  obtain ⟨hs, hrv, hdr⟩ := iter_ok_spec e s hok
  obtain ⟨i1, i2, i3, i4⟩ := h
  have henv : iter_env e s = { s with w := e.child.foldl child_ev s.w } := by
    simp only [iter_env, hs]
    rfl
  have hbs : before_select e s = { s with w := e.child.foldl child_ev s.w } := by
    unfold before_select
    rw [henv]
    exact iter_hup_idle e _ i1
  have hinv1 : LoopInv (iter_select e (before_select e s)) po io pe ie tout terr rest := by
    rw [hbs]
    refine ⟨i1, (i2.child e.child).of_agree (fun _ => ⟨rfl, rfl⟩) rfl rfl,
      (i3.child e.child).of_agree (fun _ => ⟨rfl, rfl⟩) rfl rfl, i4⟩
  by_cases h0 : e.select_rv = 0
  · rw [loop_body_zero e s h0]
    exact ⟨rfl, hinv1⟩
  · rw [loop_body_drain e s hrv h0]
    rcases hdr with hz | ⟨ho, he⟩
    · exact absurd hz h0
    · refine ⟨rfl, ?_⟩
      exact (hinv1.drain_out e _ hid hino ho).drain_err e _ hid hino he

/-- A run without rotation whose calls all succeed leaves the loop through its condition,
with each file holding the total of its stream. -/
theorem loop_delivers (es : List IterEnv) (po io pe ie : Nat) (tout terr : List Byte)
    (hid : po ≠ pe) (hino : io ≠ ie) :
    ∀ (s : LoopSt) (c : LoopCtl) (s' : LoopSt),
      LoopInv s po io pe ie tout terr (script_child es) → run_ok es s = true →
      pipe_to_logs_loop es s = some (c, s') →
      s'.w.files io = tout ∧ s'.w.files ie = terr ∧ s'.exit_code = EXIT_SUCCESS := by
  induction es with
  | nil =>
    intro s c s' hinv _ hl
    simp only [pipe_to_logs_loop] at hl
    split_ifs at hl with hc
    simp only [Option.some.injEq, Prod.mk.injEq] at hl
    obtain ⟨_, rfl⟩ := hl
    simp only [loop_cond, Bool.or_eq_true, decide_eq_true_eq, not_or] at hc
    exact ⟨hinv.2.1.2 hc.1, hinv.2.2.1.2 hc.2, hinv.2.2.2⟩
  | cons e es ih =>
    intro s c s' hinv hok hl
    simp only [pipe_to_logs_loop] at hl
    simp only [run_ok] at hok
    split_ifs at hl with hc
    · rw [if_pos hc] at hok
      simp only [Bool.and_eq_true] at hok
      obtain ⟨st1, st2⟩ := LoopInv.step e hinv hid hino hok.1
      have hb : loop_body e s = (LoopCtl.next, (loop_body e s).2) := by
        rw [← st1]
      rw [hb] at hl
      exact ih _ c s' st2 hok.2 hl
    · simp only [Option.some.injEq, Prod.mk.injEq] at hl
      obtain ⟨_, rfl⟩ := hl
      simp only [loop_cond, Bool.or_eq_true, decide_eq_true_eq, not_or] at hc
      exact ⟨hinv.2.1.2 hc.1, hinv.2.2.1.2 hc.2, hinv.2.2.2⟩

/-- A drain leaves the target as it is, or leaves it done. -/
theorem read_pipe_into_log_target (log : stdlog_t) (w : World) (d : DrainEnv) :
    (read_pipe_into_log log w d).2.1 = log ∨ (read_pipe_into_log log w d).2.1.done = 1 := by
  by_cases h1 : d.read_r = -1
  · right; rw [read_pipe_into_log_err log w d h1]
    show (deinit_log _ _ _).1.done = 1
    rw [deinit_log_fields]
  · by_cases h0 : d.read_r = 0
    · right; rw [read_pipe_into_log_eof log w d h0]
      show (deinit_log _ _ _).1.done = 1
      rw [deinit_log_fields]
    · by_cases hw : d.write_r = d.read_r
      · left; rw [read_pipe_into_log_full log w d h1 h0 hw]
      · right; rw [read_pipe_into_log_short log w d h1 h0 hw]
        show (deinit_log _ _ _).1.done = 1
        rw [deinit_log_fields]

/-- In an iteration without signal and without pending rotation whose `select` does not
fail, each target is left as it was or done; and a target that is not done and is
answered end of stream is done after the iteration. -/
theorem loop_body_targets (e : IterEnv) (s : LoopSt) (hup : s.g.hupped = 0)
    (hs : e.signal = false) (hrv : e.select_rv ≠ -1) :
    ((loop_body e s).2.g.out = s.g.out ∨ (loop_body e s).2.g.out.done = 1) ∧
    ((loop_body e s).2.g.err = s.g.err ∨ (loop_body e s).2.g.err.done = 1) ∧
    (s.g.out.done = 0 → eof_out s.g.out.pipe0 e → (loop_body e s).2.g.out.done = 1) ∧
    (s.g.err.done = 0 → eof_err s.g.err.pipe0 e → (loop_body e s).2.g.err.done = 1) := by
  have henv : iter_env e s = { s with w := e.child.foldl child_ev s.w } := by
    simp only [iter_env, hs]
    rfl
  have hbs : before_select e s = { s with w := e.child.foldl child_ev s.w } := by
    unfold before_select
    rw [henv]
    exact iter_hup_idle e _ hup
  have hg : (before_select e s).g = s.g := by rw [hbs]
  by_cases h0 : e.select_rv = 0
  · rw [loop_body_zero e s h0]
    refine ⟨Or.inl ?_, Or.inl ?_, fun _ h => absurd h0 h.1, fun _ h => absurd h0 h.1⟩
    · show (before_select e s).g.out = s.g.out
      rw [hg]
    · show (before_select e s).g.err = s.g.err
      rw [hg]
  · rw [loop_body_drain e s hrv h0]
    have hout : (iter_drain_out e (select_result e (before_select e s).g)
          (iter_select e (before_select e s))).g.out = s.g.out ∨
        (iter_drain_out e (select_result e (before_select e s).g)
          (iter_select e (before_select e s))).g.out.done = 1 := by
      by_cases ha : (iter_select e (before_select e s)).g.out.done = 0 ∧
          select_result e (before_select e s).g
            (iter_select e (before_select e s)).g.out.pipe0 = true
      · rw [iter_drain_out_run e (select_result e (before_select e s).g)
          (iter_select e (before_select e s)) ha.1 ha.2]
        rcases read_pipe_into_log_target (iter_select e (before_select e s)).g.out
          (iter_select e (before_select e s)).w e.drain_out with h | h
        · left
          show (read_pipe_into_log _ _ _).2.1 = s.g.out
          rw [h]
          show (before_select e s).g.out = s.g.out
          rw [hg]
        · right; exact h
      · left
        simp only [iter_drain_out]
        rw [if_neg ha]
        show (before_select e s).g.out = s.g.out
        rw [hg]
    have he0 : (iter_drain_out e (select_result e (before_select e s).g)
        (iter_select e (before_select e s))).g.err = s.g.err := by
      rw [iter_drain_out_err]
      show (before_select e s).g.err = s.g.err
      rw [hg]
    refine ⟨?_, ?_, ?_, ?_⟩
    · rw [iter_drain_err_out]; exact hout
    · by_cases ha : (iter_drain_out e (select_result e (before_select e s).g)
            (iter_select e (before_select e s))).g.err.done = 0 ∧
          select_result e (before_select e s).g
            (iter_drain_out e (select_result e (before_select e s).g)
              (iter_select e (before_select e s))).g.err.pipe0 = true
      · rw [iter_drain_err_run e _ _ ha.1 ha.2]
        rcases read_pipe_into_log_target
          (iter_drain_out e (select_result e (before_select e s).g)
            (iter_select e (before_select e s))).g.err
          (iter_drain_out e (select_result e (before_select e s).g)
            (iter_select e (before_select e s))).w e.drain_err with h | h
        · left
          show (read_pipe_into_log _ _ _).2.1 = s.g.err
          rw [h, he0]
        · right; exact h
      · left
        simp only [iter_drain_err]
        rw [if_neg ha]
        exact he0
    · intro hd heof
      rw [iter_drain_err_out]
      have hd1 : (before_select e s).g.out.done = 0 := by rw [hg]; exact hd
      have hr1 : e.readfds (before_select e s).g.out.pipe0 = true := by
        rw [hg]; exact heof.2.1
      rw [iter_drain_out_run e (select_result e (before_select e s).g)
        (iter_select e (before_select e s)) hd1
        (select_result_out e (before_select e s).g hd1 hr1)]
      show (read_pipe_into_log _ _ _).2.1.done = 1
      rw [read_pipe_into_log_eof _ _ _ heof.2.2]
      show (deinit_log _ _ _).1.done = 1
      rw [deinit_log_fields]
    · intro hd heof
      have hd1 : (iter_drain_out e (select_result e (before_select e s).g)
          (iter_select e (before_select e s))).g.err.done = 0 := by rw [he0]; exact hd
      have hd2 : (before_select e s).g.err.done = 0 := by rw [hg]; exact hd
      have hr2 : e.readfds (before_select e s).g.err.pipe0 = true := by
        rw [hg]; exact heof.2.1
      have hr1 : select_result e (before_select e s).g
          (iter_drain_out e (select_result e (before_select e s).g)
            (iter_select e (before_select e s))).g.err.pipe0 = true := by
        rw [he0, ← hg]
        exact select_result_err e (before_select e s).g hd2 hr2
      rw [iter_drain_err_run e _ _ hd1 hr1]
      show (read_pipe_into_log _ _ _).2.1.done = 1
      rw [read_pipe_into_log_eof _ _ _ heof.2.2]
      show (deinit_log _ _ _).1.done = 1
      rw [deinit_log_fields]

/-- A run without rotation whose calls all succeed returns once the script has answered
end of stream to both targets. -/
theorem loop_returns (es : List IterEnv) (po io pe ie : Nat) (tout terr : List Byte)
    (hid : po ≠ pe) (hino : io ≠ ie) :
    ∀ (s : LoopSt),
      LoopInv s po io pe ie tout terr (script_child es) → run_ok es s = true →
      (s.g.out.done ≠ 0 ∨ ∃ e ∈ es, eof_out s.g.out.pipe0 e) →
      (s.g.err.done ≠ 0 ∨ ∃ e ∈ es, eof_err s.g.err.pipe0 e) →
      ∃ c s', pipe_to_logs_loop es s = some (c, s') := by
  induction es with
  | nil =>
    intro s _ _ ho he
    have h1 : s.g.out.done ≠ 0 := by
      rcases ho with h | ⟨e, hm, _⟩
      · exact h
      · cases hm
    have h2 : s.g.err.done ≠ 0 := by
      rcases he with h | ⟨e, hm, _⟩
      · exact h
      · cases hm
    have hc : loop_cond s = false := by simp [loop_cond, h1, h2]
    exact ⟨LoopCtl.next, s, by simp [pipe_to_logs_loop, hc]⟩
  | cons e es ih =>
    intro s hinv hok ho he
    by_cases hc : loop_cond s = true
    · simp only [run_ok] at hok
      rw [if_pos hc] at hok
      simp only [Bool.and_eq_true] at hok
      obtain ⟨st1, st2⟩ := LoopInv.step e hinv hid hino hok.1
      obtain ⟨hs, hrv, _⟩ := iter_ok_spec e s hok.1
      obtain ⟨t1, t2, t3, t4⟩ := loop_body_targets e s hinv.1 hs hrv
      obtain ⟨d1, d2⟩ := loop_body_done e s
      have hb : loop_body e s = (LoopCtl.next, (loop_body e s).2) := by
        rw [← st1]
      have ho' : (loop_body e s).2.g.out.done ≠ 0 ∨
          ∃ e' ∈ es, eof_out (loop_body e s).2.g.out.pipe0 e' := by
        by_cases hd : s.g.out.done = 0
        · rcases ho with h | ⟨e0, hm, h0⟩
          · exact absurd hd h
          · rcases List.mem_cons.1 hm with rfl | hm'
            · left; rw [t3 hd h0]; decide
            · rcases t1 with h | h
              · right; rw [h]; exact ⟨e0, hm', h0⟩
              · left; rw [h]; decide
        · left; rw [d1 hd]; exact hd
      have he' : (loop_body e s).2.g.err.done ≠ 0 ∨
          ∃ e' ∈ es, eof_err (loop_body e s).2.g.err.pipe0 e' := by
        by_cases hd : s.g.err.done = 0
        · rcases he with h | ⟨e0, hm, h0⟩
          · exact absurd hd h
          · rcases List.mem_cons.1 hm with rfl | hm'
            · left; rw [t4 hd h0]; decide
            · rcases t2 with h | h
              · right; rw [h]; exact ⟨e0, hm', h0⟩
              · left; rw [h]; decide
        · left; rw [d2 hd]; exact hd
      obtain ⟨c, s', hl⟩ := ih _ st2 hok.2 ho' he'
      refine ⟨c, s', ?_⟩
      simp only [pipe_to_logs_loop]
      rw [if_pos hc, hb]
      exact hl
    · refine ⟨LoopCtl.next, s, ?_⟩
      simp only [pipe_to_logs_loop]
      rw [if_neg hc]

/-- C1 as stated fails when both targets write to the same file: with `-o` and `-e` naming
one file, both descriptors are open on file 0; the child writes one byte to each stream,
no rotation is requested and every call succeeds, yet when the loop has ended the file
holds both bytes, not just the byte written to one stream. -/
theorem shared_file_mixes_streams :
    g_shared.hupped = 0 ∧
    w_shared.fds g_shared.out.path_fd = some (FdObj.file 0) ∧
    w_shared.fds g_shared.err.path_fd = some (FdObj.file 0) ∧
    run_ok [it_one_each, it_eof_plain] ⟨g_shared, w_shared, EXIT_SUCCESS⟩ = true ∧
    written 0 (script_child [it_one_each, it_eof_plain]) = [97] ∧
    written 1 (script_child [it_one_each, it_eof_plain]) = [98] ∧
    (pipe_to_logs [it_one_each, it_eof_plain] deinit_ok deinit_ok g_shared w_shared).map
      (fun r => (r.1, r.2.2.files 0)) = some (0, [97, 98]) := by
  decide

/-- C1 amended: pipes are FIFO byte queues and log files append-only byte sequences, and
the two targets write to two different files. Take any run of `pipe_to_logs` from a state
as `main` leaves it (both targets not done, each with its descriptors open on its own pipe
and its own file, no rotation pending), against any schedule of child writes, such that no
signal arrives and every `select`, `read` and `write` succeeds (`read` returns a non-empty
prefix of at most `PIPE_BUF` queued bytes, or 0 only when the queue is empty and the
writer has closed; `write` accepts all bytes offered). When the run returns, each log
file holds its initial content followed by exactly the bytes the child wrote to that
stream (those queued at the start, then those of the schedule), in order; the code
returned is `EXIT_SUCCESS` and both targets are done. And the run does return as soon as
the script has answered end of stream on both read ends. -/
theorem pipe_to_logs_delivers (es : List IterEnv) (fo fe : DeinitEnv) (g : Globals)
    (w : World) (po io pe ie : Nat)
    (hhup : g.hupped = 0) (hod : g.out.done = 0) (hed : g.err.done = 0)
    (hop : w.fds g.out.pipe0 = some (FdObj.pipe_r po))
    (hof : w.fds g.out.path_fd = some (FdObj.file io))
    (hep : w.fds g.err.pipe0 = some (FdObj.pipe_r pe))
    (hef : w.fds g.err.path_fd = some (FdObj.file ie))
    (hid : po ≠ pe) (hino : io ≠ ie)
    (hok : run_ok es ⟨g, w, EXIT_SUCCESS⟩ = true) :
    (∀ r, pipe_to_logs es fo fe g w = some r →
      r.2.2.files io = w.files io ++ (w.pipes po).queue ++
        (if (w.pipes po).wclosed then [] else written po (script_child es)) ∧
      r.2.2.files ie = w.files ie ++ (w.pipes pe).queue ++
        (if (w.pipes pe).wclosed then [] else written pe (script_child es)) ∧
      r.1 = EXIT_SUCCESS ∧ r.2.1.out.done = 1 ∧ r.2.1.err.done = 1) ∧
    ((∃ e ∈ es, eof_out g.out.pipe0 e) → (∃ e ∈ es, eof_err g.err.pipe0 e) →
      ∃ r, pipe_to_logs es fo fe g w = some r) := by
  have hinv : LoopInv ⟨g, w, EXIT_SUCCESS⟩ po io pe ie
      (w.files io ++ (w.pipes po).queue ++
        (if (w.pipes po).wclosed then [] else written po (script_child es)))
      (w.files ie ++ (w.pipes pe).queue ++
        (if (w.pipes pe).wclosed then [] else written pe (script_child es)))
      (script_child es) :=
    ⟨hhup, ⟨fun _ => ⟨hop, hof, rfl⟩, fun hn => absurd hod hn⟩,
      ⟨fun _ => ⟨hep, hef, rfl⟩, fun hn => absurd hed hn⟩, rfl⟩
  constructor
  · intro r hret
    simp only [pipe_to_logs] at hret
    cases hl : pipe_to_logs_loop es ⟨g, w, EXIT_SUCCESS⟩ with
    | none => rw [hl] at hret; simp at hret
    | some cs =>
      obtain ⟨c, s'⟩ := cs
      rw [hl] at hret
      simp only [Option.some.injEq] at hret
      obtain ⟨l1, l2, l3⟩ := loop_delivers es po io pe ie _ _ hid hino _ c s' hinv hok hl
      obtain ⟨_, d2, _⟩ := deinit_log_frame s'.g.out s'.w fo
      obtain ⟨_, e2, _⟩ := deinit_log_frame s'.g.err (deinit_log s'.g.out s'.w fo).2 fe
      rw [← hret]
      refine ⟨?_, ?_, l3, ?_, ?_⟩
      · show (deinit_log _ _ _).2.files io = _
        rw [e2, d2]; exact l1
      · show (deinit_log _ _ _).2.files ie = _
        rw [e2, d2]; exact l2
      · show (deinit_log _ _ _).1.done = 1
        rw [deinit_log_fields]
      · show (deinit_log _ _ _).1.done = 1
        rw [deinit_log_fields]
  · intro ho he
    obtain ⟨c, s', hl⟩ := loop_returns es po io pe ie _ _ hid hino _ hinv hok
      (Or.inr ho) (Or.inr he)
    simp only [pipe_to_logs]
    rw [hl]
    exact ⟨_, rfl⟩

/-- C1 amended, evaluated: the child writes `hello` and a newline to its standard output
and `er` and a newline to its standard error, then closes both; the run returns, file 0
(the log of `out`) holds the six bytes and file 1 (the log of `err`) the three. -/
theorem pipe_to_logs_delivers_witness :
    (∃ r, pipe_to_logs [it_both_write, it_both_eof] deinit_ok deinit_ok g0 w0 = some r) ∧
    ∀ r, pipe_to_logs [it_both_write, it_both_eof] deinit_ok deinit_ok g0 w0 = some r →
      r.2.2.files 0 = [104, 101, 108, 108, 111, 10] ∧
      r.2.2.files 1 = [101, 114, 10] ∧
      r.1 = EXIT_SUCCESS ∧ r.2.1.out.done = 1 ∧ r.2.1.err.done = 1 :=
  have h := pipe_to_logs_delivers [it_both_write, it_both_eof] deinit_ok deinit_ok g0 w0
    0 0 1 1 (by decide) (by decide) (by decide) (by decide) (by decide) (by decide)
    (by decide) (by decide) (by decide) (by decide)
  ⟨h.2 ⟨it_both_eof, by simp, by decide, by decide, by decide⟩
      ⟨it_both_eof, by simp, by decide, by decide, by decide⟩,
    fun r hr =>
      ⟨((h.1 r hr).1).trans (by decide), ((h.1 r hr).2.1).trans (by decide),
        (h.1 r hr).2.2⟩⟩

end Loghup
